import Mathlib

/-!
Shallow embedding of the reading-tracker enrichment pipeline.

Sources embedded here:
- src/lib/google-books.ts   (general-search adapter, genre classifier, ISBN merge engine)
- the OpenBD adapter        (ISBN-registry adapter, ISBN-10 to ISBN-13 conversion)
- src/lib/amazon.ts         (ASIN extraction used by the candidate selector)
- src/lib/storage.ts        (record store updateBook)
- the backfill scheduler in the Home page component (cooldown, negative cache,
  Phase 1 / Phase 2 candidate selection and loops, persistence)

External effects (fetch responses, localStorage slots, clock) are passed in
explicitly; JavaScript truthiness and number coercions are modelled by small
helper functions named js*.
-/

set_option maxHeartbeats 1000000

/-- JavaScript truthiness of a string: falsy exactly when empty. -/
def jsStrTruthy (s : String) : Bool := !(s == "")

/-- JavaScript truthiness of a nullable string field (null or empty is falsy). -/
def jsTruthyOptStr : Option String → Bool
  | none => false
  | some s => jsStrTruthy s

/-- Numeric value of a decimal digit character. -/
def charDigit (c : Char) : Nat := c.toNat - 48

/-- Value of a nonempty list of decimal digit characters, most significant first. -/
def digitsVal (ds : List Char) : Nat := ds.foldl (fun a c => a * 10 + charDigit c) 0

/-- Model of JavaScript parseInt on the strings this program feeds it:
the leading run of decimal digits, none when there is no leading digit (NaN). -/
def jsParseInt (s : String) : Option Nat :=
  let ds := s.data.takeWhile Char.isDigit
  if ds = [] then none else some (digitsVal ds)

/-- The restriction of JavaScript Number(s) to the nonempty all-digit
strings this program itself writes: such a string parses to its value.
A none only means the string is outside this restricted domain; the full
parser of Number is jsNumberParse below. -/
def jsNumber (s : String) : Option Int :=
  if s.data ≠ [] ∧ s.data.all Char.isDigit = true then
    some (Int.ofNat (Nat.ofDigits 10 ((s.data.map charDigit).reverse)))
  else none

/-- Model of JavaScript String(n) for the nonnegative timestamps this program stores. -/
def timeString (n : Int) : String :=
  if n.toNat = 0 then "0"
  else String.mk (((Nat.digits 10 n.toNat).map (fun d => Char.ofNat (48 + d))).reverse)

/-- A JavaScript whitespace character in the ASCII range Number trims. -/
def jsWs (c : Char) : Bool := c == ' ' || c == '\t' || c == '\n' || c == '\r'

/-- The whitespace trimming Number applies to both ends of its input. -/
def trimWs (l : List Char) : List Char :=
  ((l.dropWhile jsWs).reverse.dropWhile jsWs).reverse

/-- The value of a JavaScript Number(s) call: NaN, a signed infinity, or a
finite value represented exactly as m times 10 to the e. -/
inductive JSNum
  | nan
  | posInf
  | negInf
  | finite (m : Int) (e : Int)
deriving DecidableEq, Repr

/-- Value of one hexadecimal digit. -/
def hexDigitVal (c : Char) : Option Nat :=
  if c.isDigit then some (charDigit c)
  else if 'a' ≤ c ∧ c ≤ 'f' then some (c.toNat - 87)
  else if 'A' ≤ c ∧ c ≤ 'F' then some (c.toNat - 55)
  else none

/-- Value of one binary digit. -/
def binDigitVal (c : Char) : Option Nat :=
  if c = '0' then some 0 else if c = '1' then some 1 else none

/-- Value of one octal digit. -/
def octDigitVal (c : Char) : Option Nat :=
  if c.isDigit ∧ c.toNat ≤ 55 then some (charDigit c) else none

/-- Value of a digit run in a given base, none on a bad digit. -/
def radixVal (b : Nat) (dv : Char → Option Nat) (l : List Char) : Option Nat :=
  l.foldl (fun acc c =>
    match acc, dv c with
    | some a, some d => some (a * b + d)
    | _, _ => none) (some 0)

/-- An optionally signed nonempty decimal digit run (the exponent body). -/
def parseSignDigits (l : List Char) : Option Int :=
  let neg := l.headD ' ' = '-'
  let r := if l.headD ' ' = '+' ∨ l.headD ' ' = '-' then l.drop 1 else l
  if r ≠ [] ∧ r.all Char.isDigit = true then
    some (if neg then -(Int.ofNat (digitsVal r)) else Int.ofNat (digitsVal r))
  else none

/-- An optional exponent part closing a decimal literal: empty means
exponent 0, otherwise e or E followed by a signed digit run. -/
def parseExpPart (l : List Char) : Option Int :=
  if l = [] then some 0
  else if l.headD ' ' = 'e' ∨ l.headD ' ' = 'E' then parseSignDigits (l.drop 1)
  else none

/-- An unsigned decimal literal digits[.digits][exponent] or
.digits[exponent], as the exact pair m and e with value m times 10 to
the e; none when the input is not such a literal. -/
def parseUnsignedDec (l : List Char) : Option (Int × Int) :=
  let ip := l.takeWhile Char.isDigit
  let rest1 := l.dropWhile Char.isDigit
  if rest1.headD ' ' = '.' then
    let rest2 := rest1.drop 1
    let fp := rest2.takeWhile Char.isDigit
    let rest3 := rest2.dropWhile Char.isDigit
    if ip = [] ∧ fp = [] then none
    else
      (parseExpPart rest3).map (fun ex =>
        (Int.ofNat (digitsVal ip * 10 ^ fp.length + digitsVal fp), ex - Int.ofNat fp.length))
  else
    if ip = [] then none
    else (parseExpPart rest1).map (fun ex => (Int.ofNat (digitsVal ip), ex))

/-- A radix-prefixed integer literal body (after 0x, 0b or 0o): a nonempty
run of digits of the base, else NaN. -/
def radixCase (b : Nat) (dv : Char → Option Nat) (l : List Char) : JSNum :=
  if l = [] then JSNum.nan
  else
    match radixVal b dv l with
    | some v => JSNum.finite (Int.ofNat v) 0
    | none => JSNum.nan

/-- An optionally signed decimal literal or Infinity. -/
def decSigned (t : List Char) : JSNum :=
  let neg := t.headD ' ' = '-'
  let u := if t.headD ' ' = '+' ∨ t.headD ' ' = '-' then t.drop 1 else t
  if u = "Infinity".data then (if neg then JSNum.negInf else JSNum.posInf)
  else
    match parseUnsignedDec u with
    | some me => JSNum.finite (if neg then -me.1 else me.1) me.2
    | none => JSNum.nan

/-- Model of JavaScript Number(s) on all strings: trim whitespace, an empty
remainder is 0, a 0x/0b/0o prefix starts an unsigned radix literal, and
otherwise an optionally signed decimal literal or Infinity; everything
else is NaN. Finite values are kept exactly as m times 10 to the e. -/
def jsNumberParse (s : String) : JSNum :=
  let t := trimWs s.data
  match t with
  | [] => JSNum.finite 0 0
  | c :: rest =>
    if c = '0' then
      match rest with
      | x :: rest2 =>
        if x = 'x' ∨ x = 'X' then radixCase 16 hexDigitVal rest2
        else if x = 'b' ∨ x = 'B' then radixCase 2 binDigitVal rest2
        else if x = 'o' ∨ x = 'O' then radixCase 8 octDigitVal rest2
        else decSigned t
      | [] => decSigned t
    else decSigned t

/-- The comparison a less than m times 10 to the e, decided exactly over
the rationals (multiply through by the positive power of 10). This agrees
with the float64 comparison of the program on every value it writes and
on the reviewer-relevant forms; an overflowing literal compares like the
infinity it becomes. -/
def jsLtVal (a : Int) (m e : Int) : Bool :=
  if 0 ≤ e then decide (a < m * 10 ^ e.toNat) else decide (a * 10 ^ (-e).toNat < m)

/-- Per-character lowercasing (JavaScript toLowerCase on the ASCII keys
this program compares). -/
def strLower (s : String) : String := String.mk (s.data.map Char.toLower)

/-- Is needle a contiguous sublist of hay (JavaScript String.includes on char lists). -/
def subList (needle : List Char) : List Char → Bool
  | [] => needle.isEmpty
  | c :: rest => needle.isPrefixOf (c :: rest) || subList needle rest

/-- JavaScript hay.includes(needle) for strings. -/
def strIncludes (hay needle : String) : Bool := subList needle.data hay.data

-- ==========================================================================
-- google-books.ts : data model and general-search adapter
-- ==========================================================================

/-- GoogleBookResult from src/lib/google-books.ts. -/
structure GoogleBookResult where
  id : String
  title : String
  authors : List String
  categories : List String
  publishedDate : String
  pageCount : Nat
  thumbnail : Option String
  description : Option String
deriving DecidableEq, Repr

/-- VolumeInfo from src/lib/google-books.ts (optional raw fields, imageLinks flattened). -/
structure VolumeInfo where
  title : Option String
  authors : Option (List String)
  categories : Option (List String)
  publishedDate : Option String
  pageCount : Option Nat
  description : Option String
  imageLinksThumbnail : Option String
  imageLinksSmallThumbnail : Option String
deriving DecidableEq, Repr

/-- VolumeItem from src/lib/google-books.ts. -/
structure VolumeItem where
  id : String
  volumeInfo : VolumeInfo
deriving DecidableEq, Repr

/-- mapVolumeToResult from src/lib/google-books.ts. -/
def mapVolumeToResult (item : VolumeItem) : GoogleBookResult :=
  { id := item.id
    title := item.volumeInfo.title.getD ""
    authors := item.volumeInfo.authors.getD []
    categories := item.volumeInfo.categories.getD []
    publishedDate := item.volumeInfo.publishedDate.getD ""
    pageCount := item.volumeInfo.pageCount.getD 0
    thumbnail :=
      match item.volumeInfo.imageLinksThumbnail with
      | some t => some t
      | none => item.volumeInfo.imageLinksSmallThumbnail
    description := item.volumeInfo.description }

/-- CATEGORY_MAP from src/lib/google-books.ts, in declaration order. -/
def CATEGORY_MAP : List (String × String) :=
  [("Fiction", "文学・評論"),
   ("Literary Fiction", "文学・評論"),
   ("Literature", "文学・評論"),
   ("Literary Criticism", "文学・評論"),
   ("Poetry", "文学・評論"),
   ("Drama", "文学・評論"),
   ("Philosophy", "人文・思想"),
   ("Psychology", "人文・思想"),
   ("Religion", "人文・思想"),
   ("Self-Help", "人文・思想"),
   ("Body, Mind & Spirit", "人文・思想"),
   ("Social Science", "社会・政治・法律"),
   ("Political Science", "社会・政治・法律"),
   ("Law", "社会・政治・法律"),
   ("True Crime", "社会・政治・法律"),
   ("Nonfiction", "ノンフィクション"),
   ("Biography & Autobiography", "ノンフィクション"),
   ("History", "歴史・地理"),
   ("Travel", "旅行ガイド・マップ"),
   ("Business & Economics", "ビジネス・経済"),
   ("Business", "ビジネス・経済"),
   ("Economics", "ビジネス・経済"),
   ("Science", "科学・テクノロジー"),
   ("Technology & Engineering", "科学・テクノロジー"),
   ("Mathematics", "科学・テクノロジー"),
   ("Nature", "科学・テクノロジー"),
   ("Medical", "医学・薬学・看護学・歯科学"),
   ("Health & Fitness", "暮らし・健康・子育て"),
   ("Computers", "コンピュータ・IT"),
   ("Art", "アート・建築・デザイン"),
   ("Architecture", "アート・建築・デザイン"),
   ("Design", "アート・建築・デザイン"),
   ("Photography", "アート・建築・デザイン"),
   ("Music", "楽譜・スコア・音楽書"),
   ("Performing Arts", "エンターテイメント"),
   ("Crafts & Hobbies", "趣味・実用"),
   ("Cooking", "趣味・実用"),
   ("Gardening", "趣味・実用"),
   ("Games & Activities", "趣味・実用"),
   ("Humor", "趣味・実用"),
   ("Pets", "趣味・実用"),
   ("Sports & Recreation", "スポーツ・アウトドア"),
   ("Education", "教育・学参・受験"),
   ("Study Aids", "資格・検定・就職"),
   ("Language Arts & Disciplines", "語学・辞事典・年鑑"),
   ("Foreign Language Study", "英語学習"),
   ("Juvenile Fiction", "絵本・児童書"),
   ("Juvenile Nonfiction", "絵本・児童書"),
   ("Comics & Graphic Novels", "コミック"),
   ("Young Adult Fiction", "ライトノベル"),
   ("Young Adult Nonfiction", "ライトノベル"),
   ("Family & Relationships", "暮らし・健康・子育て"),
   ("House & Home", "暮らし・健康・子育て"),
   ("Reference", "語学・辞事典・年鑑"),
   ("Antiques & Collectibles", "古書・希少本")]

/-- Exact case-sensitive lookup CATEGORY_MAP[cat], with the truthiness test
of the source (a falsy value would not be returned). -/
def lookupExact (cat : String) : Option String :=
  match (CATEGORY_MAP.find? (fun p => p.1 == cat)).map Prod.snd with
  | some v => if jsStrTruthy v then some v else none
  | none => none

/-- Case-insensitive substring fallback: first CATEGORY_MAP entry in declaration
order whose lowercased key is contained in the lowercased category. -/
def lookupSubstr (cat : String) : Option String :=
  (CATEGORY_MAP.find? (fun p => strIncludes (strLower cat) (strLower p.1))).map Prod.snd

/-- What one category contributes in mapCategoryToGenre: exact match first,
then the substring fallback. -/
def matchCat (cat : String) : Option String :=
  match lookupExact cat with
  | some v => some v
  | none => lookupSubstr cat

/-- Iteration of mapCategoryToGenre over the category list: first category
with a match wins. -/
def firstCatMatch : List String → Option String
  | [] => none
  | c :: cs =>
    match matchCat c with
    | some v => some v
    | none => firstCatMatch cs

/-- mapCategoryToGenre from src/lib/google-books.ts. -/
def mapCategoryToGenre (categories : List String) : String :=
  match firstCatMatch categories with
  | some v => v
  | none => categories.headD ""

/-- The rate-limit condition (class RateLimitError). -/
inductive BooksError
  | rateLimit
deriving DecidableEq, Repr

/-- Outcome of one Google Books HTTP fetch, as seen by the adapters:
a response with a status and an optional items array, or a transport-level
failure (network error, unparsable body). -/
inductive GoogleFetch
  | response (status : Nat) (items : Option (List VolumeItem))
  | failure
deriving DecidableEq, Repr

/-- The ok flag of a fetch response: status in the 200 to 299 range. -/
def resOk (status : Nat) : Bool := decide (200 ≤ status ∧ status ≤ 299)

/-- What the googlePromise of searchByIsbn resolves to after its catch handler:
the rate-limit marker, a mapped first item, or null. -/
inductive GoogleRaw
  | rateLimited
  | noResult
  | found (r : GoogleBookResult)
deriving DecidableEq, Repr

/-- The googlePromise pipeline of searchByIsbn in src/lib/google-books.ts:
status 429 becomes the rate-limit marker, any other non-ok status, a missing
or empty items array, or a transport failure becomes null, and otherwise the
first item is normalized. -/
def googleIsbnRaw : GoogleFetch → GoogleRaw
  | .failure => .noResult
  | .response status items =>
    if status = 429 then .rateLimited
    else if !resOk status then .noResult
    else
      match items with
      | none => .noResult
      | some [] => .noResult
      | some (it :: _) => .found (mapVolumeToResult it)

/-- First merge assignment of searchByIsbn: supplement a falsy thumbnail. -/
def mergeStep1 (b g : GoogleBookResult) : GoogleBookResult :=
  if !jsTruthyOptStr b.thumbnail && jsTruthyOptStr g.thumbnail then
    { b with thumbnail := g.thumbnail } else b

/-- Second merge assignment: supplement a falsy description. -/
def mergeStep2 (b g : GoogleBookResult) : GoogleBookResult :=
  if !jsTruthyOptStr b.description && jsTruthyOptStr g.description then
    { b with description := g.description } else b

/-- Third merge assignment: supplement a zero page count. -/
def mergeStep3 (b g : GoogleBookResult) : GoogleBookResult :=
  if b.pageCount == 0 && !(g.pageCount == 0) then
    { b with pageCount := g.pageCount } else b

/-- Fourth merge assignment: supplement an empty or year-only published date. -/
def mergeStep4 (b g : GoogleBookResult) : GoogleBookResult :=
  if (!jsStrTruthy b.publishedDate || decide (b.publishedDate.length ≤ 4))
      && jsStrTruthy g.publishedDate then
    { b with publishedDate := g.publishedDate } else b

/-- Fifth merge assignment: supplement empty categories. -/
def mergeStep5 (b g : GoogleBookResult) : GoogleBookResult :=
  if b.categories.length == 0 && decide (g.categories.length > 0) then
    { b with categories := g.categories } else b

/-- The field-level merge of searchByIsbn when both providers returned a
result: the OpenBD record is mutated by the five conditional assignments of
the source, in order. -/
def mergeResults (b g : GoogleBookResult) : GoogleBookResult :=
  mergeStep5 (mergeStep4 (mergeStep3 (mergeStep2 (mergeStep1 b g) g) g) g) g

/-- searchByIsbn from src/lib/google-books.ts, with the OpenBD side already
resolved (its catch handler maps any error to null) and the Google side given
as a raw fetch outcome. Returns the merged result, or raises the rate-limit
condition exactly when OpenBD had nothing and Google was rate limited. -/
def searchByIsbnModel (openBDResult : Option GoogleBookResult) (f : GoogleFetch) :
    Except BooksError (Option GoogleBookResult) :=
  let googleRaw := googleIsbnRaw f
  let googleResult : Option GoogleBookResult :=
    match googleRaw with
    | .found r => some r
    | _ => none
  match openBDResult with
  | some base =>
    match googleResult with
    | some g => Except.ok (some (mergeResults base g))
    | none => Except.ok (some base)
  | none =>
    match googleRaw with
    | .rateLimited => Except.error BooksError.rateLimit
    | _ => Except.ok googleResult

-- ==========================================================================
-- OpenBD adapter : ISBN-registry client
-- ==========================================================================

/-- isbn10to13 from the OpenBD adapter: prefix the first 9 characters with
978, sum the 12 digits with weights 1 at even 0-based positions and 3 at odd
positions, append the complement check digit. A non-digit among the 12
characters makes the JavaScript sum NaN and the result base + NaN. -/
def sumLoop : List Char → Nat → Option Nat
  | [], _ => some 0
  | c :: cs, i =>
    match (if c.isDigit then some (charDigit c) else none), sumLoop cs (i + 1) with
    | some d, some rest => some (d * (if i % 2 = 0 then 1 else 3) + rest)
    | _, _ => none

/-- isbn10to13 from the OpenBD adapter (see sumLoop). -/
def isbn10to13 (isbn10 : String) : String :=
  let base := "978".data ++ isbn10.data.take 9
  match (if base.length < 12 then none else sumLoop base 0) with
  | some s => String.mk (base ++ [Char.ofNat (48 + (10 - s % 10) % 10)])
  | none => String.mk base ++ "NaN"

/-- CCODE_GENRE_MAP from the OpenBD adapter, keyed by the 2-digit content
suffix of a C-code. -/
def CCODE_GENRE_MAP : List (String × String) :=
  [("10", "人文・思想"), ("11", "人文・思想"), ("12", "人文・思想"),
   ("14", "人文・思想"), ("15", "人文・思想"), ("16", "人文・思想"),
   ("20", "歴史・地理"), ("21", "歴史・地理"), ("22", "歴史・地理"),
   ("23", "歴史・地理"), ("26", "旅行ガイド・マップ"),
   ("30", "社会・政治・法律"), ("31", "社会・政治・法律"),
   ("32", "社会・政治・法律"), ("36", "社会・政治・法律"),
   ("33", "ビジネス・経済"), ("34", "ビジネス・経済"),
   ("37", "教育・学参・受験"),
   ("40", "科学・テクノロジー"), ("41", "科学・テクノロジー"),
   ("42", "科学・テクノロジー"), ("43", "科学・テクノロジー"),
   ("44", "科学・テクノロジー"), ("45", "科学・テクノロジー"),
   ("47", "医学・薬学・看護学・歯科学"), ("49", "医学・薬学・看護学・歯科学"),
   ("50", "科学・テクノロジー"), ("51", "科学・テクノロジー"),
   ("52", "科学・テクノロジー"), ("53", "科学・テクノロジー"),
   ("54", "科学・テクノロジー"),
   ("55", "コンピュータ・IT"),
   ("58", "暮らし・健康・子育て"), ("59", "暮らし・健康・子育て"),
   ("60", "ビジネス・経済"), ("61", "ビジネス・経済"),
   ("63", "ビジネス・経済"),
   ("70", "アート・建築・デザイン"), ("71", "アート・建築・デザイン"),
   ("72", "アート・建築・デザイン"), ("73", "アート・建築・デザイン"),
   ("74", "アート・建築・デザイン"), ("75", "アート・建築・デザイン"),
   ("76", "楽譜・スコア・音楽書"),
   ("77", "エンターテイメント"),
   ("78", "スポーツ・アウトドア"),
   ("79", "コミック"),
   ("80", "語学・辞事典・年鑑"), ("81", "語学・辞事典・年鑑"),
   ("82", "英語学習"), ("83", "英語学習"), ("84", "英語学習"),
   ("85", "英語学習"), ("86", "英語学習"), ("87", "英語学習"),
   ("88", "英語学習"), ("89", "英語学習"),
   ("90", "文学・評論"), ("91", "文学・評論"), ("92", "文学・評論"),
   ("93", "文学・評論"), ("95", "文学・評論"), ("97", "文学・評論"),
   ("98", "絵本・児童書")]

/-- CCODE_GENRE_MAP lookup with the truthiness test of the source. -/
def ccodeLookup (content : String) : Option String :=
  match (CCODE_GENRE_MAP.find? (fun p => p.1 == content)).map Prod.snd with
  | some v => if jsStrTruthy v then some v else none
  | none => none

/-- OpenBDSubject from the OpenBD adapter. -/
structure OpenBDSubject where
  SubjectSchemeIdentifier : String
  SubjectCode : String
deriving DecidableEq, Repr

/-- genreFromCCode from the OpenBD adapter: first subject with scheme 78 and
a C-code of length at least 4 whose 2-digit content suffix is in the table. -/
def genreFromCCode : List OpenBDSubject → String
  | [] => ""
  | sub :: rest =>
    if sub.SubjectSchemeIdentifier == "78" ∧ jsStrTruthy sub.SubjectCode then
      if 4 ≤ sub.SubjectCode.length then
        match ccodeLookup (String.mk (sub.SubjectCode.data.drop (sub.SubjectCode.length - 2))) with
        | some g => g
        | none => genreFromCCode rest
      else genreFromCCode rest
    else genreFromCCode rest

/-- OpenBDExtent from the OpenBD adapter. -/
structure OpenBDExtent where
  ExtentType : String
  ExtentValue : String
  ExtentUnit : String
deriving DecidableEq, Repr

/-- OpenBDTextContent from the OpenBD adapter. -/
structure OpenBDTextContent where
  TextType : String
  Text : String
deriving DecidableEq, Repr

/-- OpenBDSummary from the OpenBD adapter (the fields the code reads). -/
structure OpenBDSummary where
  title : String
  author : String
  pubdate : String
  cover : String
deriving DecidableEq, Repr

/-- The onix sub-structure of an OpenBD element, with the optional nesting
flattened to the three lists the code reads. -/
structure OpenBDOnix where
  DescriptiveDetailExtent : Option (List OpenBDExtent)
  DescriptiveDetailSubject : Option (List OpenBDSubject)
  CollateralDetailTextContent : Option (List OpenBDTextContent)
deriving DecidableEq, Repr

/-- One element of the OpenBD response array. -/
structure OpenBDResponse where
  summary : OpenBDSummary
  onix : Option OpenBDOnix
deriving DecidableEq, Repr

/-- Outcome of the OpenBD HTTP fetch: ok flag and the decoded JSON body,
none modelling a null body, elements none modelling null array entries. -/
inductive OpenBDFetch
  | response (ok : Bool) (data : Option (List (Option OpenBDResponse)))
deriving DecidableEq, Repr

/-- The suffix after the first closing angle bracket, empty when there is none. -/
def afterGt : List Char → List Char
  | [] => []
  | c :: rest => if c = '>' then rest else afterGt rest

/-- Removal of complete markup tags, the replace of /<[^>]*>/g: each < with a
later > is dropped together with everything up to the first following >. -/
def stripTags : List Char → List Char
  | [] => []
  | c :: rest =>
    if c = '<' ∧ rest.any (fun d => d = '>') then
      stripTags (afterGt rest)
    else c :: stripTags rest
termination_by s => s.length
decreasing_by
  · simp only [List.length_cons]
    have h : ∀ l : List Char, (afterGt l).length ≤ l.length := by
      intro l
      induction l with
      | nil => simp [afterGt]
      | cons d ds ih =>
        simp only [afterGt]
        split
        · simp
        · simpa using Nat.le_trans ih (Nat.le_succ _)
    exact Nat.lt_succ_of_le (h rest)
  · simp only [List.length_cons]; omega

/-- The pubdate reformatting of the OpenBD adapter: YYYYMMDD and YYYYMM get
hyphenated, anything else passes through, empty when pubdate is falsy. -/
def formatPubdate (pubdate : String) : String :=
  if !jsStrTruthy pubdate then ""
  else
    let pd := pubdate.data
    if pd.length = 8 then
      String.mk (pd.take 4 ++ '-' :: (pd.drop 4).take 2 ++ '-' :: pd.drop 6)
    else if pd.length = 6 then
      String.mk (pd.take 4 ++ '-' :: pd.drop 4)
    else pubdate

/-- searchByIsbnOpenBD from the OpenBD adapter: normalize the ISBN, and turn
the fetch outcome into a result or null. Null on a non-ok status, a null
body, an empty array, a null first element, or a missing title; otherwise
the page count, description, published date, genre and cover are extracted. -/
def searchByIsbnOpenBD (isbn : String) (f : OpenBDFetch) : Option GoogleBookResult :=
  let cleanIsbn := String.mk (isbn.data.filter (fun c => ¬(c = '-' ∨ c.isWhitespace)))
  let isbn13 := if cleanIsbn.length = 10 then isbn10to13 cleanIsbn else cleanIsbn
  match f with
  | .response ok data =>
    if !ok then none
    else
      match data with
      | none => none
      | some items =>
        match items.head? with
        | none => none
        | some none => none
        | some (some book) =>
          if !jsStrTruthy book.summary.title then none
          else
            let extents := (book.onix.bind (fun o => o.DescriptiveDetailExtent)).getD []
            let pageExtent := extents.find? (fun e => e.ExtentType == "11")
            let pageCount :=
              match pageExtent with
              | some e => (jsParseInt e.ExtentValue).getD 0
              | none => 0
            let texts := (book.onix.bind (fun o => o.CollateralDetailTextContent)).getD []
            let descText :=
              match texts.find? (fun t => t.TextType == "03") with
              | some t => some t
              | none => texts.find? (fun t => t.TextType == "02")
            let description := descText.map (fun t => String.mk (stripTags t.Text.data))
            let publishedDate := formatPubdate book.summary.pubdate
            let subjects := (book.onix.bind (fun o => o.DescriptiveDetailSubject)).getD []
            let genre := genreFromCCode subjects
            let categories := if jsStrTruthy genre then [genre] else []
            some
              { id := "openbd-" ++ isbn13
                title := book.summary.title
                authors := if jsStrTruthy book.summary.author then [book.summary.author] else []
                categories := categories
                publishedDate := publishedDate
                pageCount := pageCount
                thumbnail := if jsStrTruthy book.summary.cover then some book.summary.cover else none
                description := description }

-- ==========================================================================
-- amazon.ts : ASIN extraction
-- ==========================================================================

/-- The four alternatives of the extractAsin pattern, in alternation order. -/
def asinPats : List (List Char) := ["/dp/".data, "/gp/product/".data, "/product/".data, "/ASIN/".data]

/-- Case-insensitive character comparison (the i flag of the pattern). -/
def charIEq (a b : Char) : Bool := a.toLower == b.toLower

/-- Drop a case-insensitive pattern from the front of a character list. -/
def dropIPat : List Char → List Char → Option (List Char)
  | [], s => some s
  | _ :: _, [] => none
  | p :: ps, c :: cs => if charIEq p c then dropIPat ps cs else none

/-- A character the [A-Z0-9] class matches under the i flag. -/
def isAsinChar (c : Char) : Bool := c.isAlphanum

/-- Try one alternative at the current position: the pattern followed by
exactly 10 alphanumeric characters. -/
def tryPat (s : List Char) (p : List Char) : Option String :=
  match dropIPat p s with
  | none => none
  | some rest =>
    let cand := rest.take 10
    if cand.length = 10 ∧ cand.all isAsinChar = true then some (String.mk cand) else none

/-- Scan for the leftmost match, trying the alternatives in order at each
position, as the JavaScript regex engine does. -/
def extractAsinAux : List Char → Option String
  | [] => none
  | c :: rest =>
    match asinPats.findSome? (tryPat (c :: rest)) with
    | some a => some a
    | none => extractAsinAux rest

/-- extractAsin from src/lib/amazon.ts. -/
def extractAsin (url : String) : Option String := extractAsinAux url.data

/-- isLikelyIsbn from src/lib/amazon.ts: the ASIN starts with a digit. -/
def isLikelyIsbn (asin : String) : Bool :=
  match asin.data with
  | [] => false
  | c :: _ => c.isDigit

-- ==========================================================================
-- types/book.ts and storage.ts : the persisted record and the store
-- ==========================================================================

/-- Book from src/types/book.ts (status kept as its string value). -/
structure Book where
  id : String
  title : String
  author : String
  genre : String
  publishedDate : String
  status : String
  pageCount : Nat
  rating : Nat
  memo : String
  description : String
  thumbnail : Option String
  purchaseUrl : String
  finishedDate : Option String
  createdAt : String
  updatedAt : String
deriving DecidableEq, Repr

/-- Partial Book: the updates argument of updateBook. A some field is
present in the patch, a none field is absent and left unchanged. -/
structure BookPatch where
  id : Option String
  title : Option String
  author : Option String
  genre : Option String
  publishedDate : Option String
  status : Option String
  pageCount : Option Nat
  rating : Option Nat
  memo : Option String
  description : Option String
  thumbnail : Option (Option String)
  purchaseUrl : Option String
  finishedDate : Option (Option String)
  createdAt : Option String
  updatedAt : Option String
deriving DecidableEq, Repr

/-- The empty patch. -/
def emptyPatch : BookPatch :=
  { id := none, title := none, author := none, genre := none, publishedDate := none,
    status := none, pageCount := none, rating := none, memo := none, description := none,
    thumbnail := none, purchaseUrl := none, finishedDate := none, createdAt := none,
    updatedAt := none }

/-- The test Object.keys(updates).length > 0: the patch assigns at least one field. -/
def patchNonempty (p : BookPatch) : Bool :=
  p.id.isSome || p.title.isSome || p.author.isSome || p.genre.isSome ||
  p.publishedDate.isSome || p.status.isSome || p.pageCount.isSome || p.rating.isSome ||
  p.memo.isSome || p.description.isSome || p.thumbnail.isSome || p.purchaseUrl.isSome ||
  p.finishedDate.isSome || p.createdAt.isSome || p.updatedAt.isSome

/-- The spread { ...book, ...updates, updatedAt: now } of updateBook in
src/lib/storage.ts. -/
def applyPatch (b : Book) (p : BookPatch) (nowIso : String) : Book :=
  { id := p.id.getD b.id
    title := p.title.getD b.title
    author := p.author.getD b.author
    genre := p.genre.getD b.genre
    publishedDate := p.publishedDate.getD b.publishedDate
    status := p.status.getD b.status
    pageCount := p.pageCount.getD b.pageCount
    rating := p.rating.getD b.rating
    memo := p.memo.getD b.memo
    description := p.description.getD b.description
    thumbnail := p.thumbnail.getD b.thumbnail
    purchaseUrl := p.purchaseUrl.getD b.purchaseUrl
    finishedDate := p.finishedDate.getD b.finishedDate
    createdAt := p.createdAt.getD b.createdAt
    updatedAt := nowIso }

/-- updateBook from src/lib/storage.ts: patch the first record with the id
in place, leave the list unchanged when the id is absent. -/
def updateBook : List Book → String → BookPatch → String → List Book
  | [], _, _, _ => []
  | b :: rest, id, p, nowIso =>
    if b.id = id then applyPatch b p nowIso :: rest
    else b :: updateBook rest id p nowIso

-- ==========================================================================
-- The backfill scheduler (auto-backfill routine of the Home page component)
-- ==========================================================================

/-- Twenty-four hours in milliseconds. -/
def ONE_DAY : Int := 24 * 60 * 60 * 1000

/-- Seven days in milliseconds. -/
def SEVEN_DAYS : Int := 7 * ONE_DAY

/-- Per-run cap of Phase 2. -/
def MAX_GOOGLE_PER_SESSION : Nat := 30

/-- The negative-result cache in memory: book id to timestamp of the last
fruitless lookup. -/
def NoData := List (String × Int)

/-- The stored negative-result cache slot: absent key, present but
unparsable JSON, or a parsed map. -/
inductive CacheSlot
  | absent
  | corrupt
  | valid (m : List (String × Int))
deriving DecidableEq, Repr

/-- getNoDataSet: JSON.parse of the stored value or an empty object, the
catch turning an unparsable value into the empty map. -/
def getNoDataSet : CacheSlot → List (String × Int)
  | .absent => []
  | .corrupt => []
  | .valid m => m

/-- Lookup noData[bookId]: value of the first entry with the key. -/
def lookupTs (m : List (String × Int)) (k : String) : Option Int :=
  (m.find? (fun p => p.1 == k)).map Prod.snd

/-- Assignment noData[bookId] = v: overwrite the existing entry or append. -/
def setTs (m : List (String × Int)) (k : String) (v : Int) : List (String × Int) :=
  if m.any (fun p => p.1 == k) then
    m.map (fun p => if p.1 == k then (k, v) else p)
  else m ++ [(k, v)]

/-- The purge at run start: delete every entry at least 7 days old. -/
def purgeNoData (now : Int) (m : List (String × Int)) : List (String × Int) :=
  m.filter (fun p => decide (now - p.2 < SEVEN_DAYS))

/-- shouldSkip of the scheduler: an entry exists and is under 7 days old. -/
def shouldSkip (now : Int) (m : List (String × Int)) (bookId : String) : Bool :=
  match lookupTs m bookId with
  | none => false
  | some ts => decide (now - ts < SEVEN_DAYS)

/-- isMissingData of the scheduler: page count 0, empty published date,
year-only published date, missing thumbnail, or empty description. -/
def isMissingData (b : Book) : Bool :=
  b.pageCount == 0 || !jsStrTruthy b.publishedDate ||
  (jsStrTruthy b.publishedDate && decide (b.publishedDate.length ≤ 4)) ||
  !jsTruthyOptStr b.thumbnail || !jsStrTruthy b.description

/-- The conditions of the Phase-1 filter that do not involve the negative
cache: a purchase URL with an ISBN-shaped ASIN, and missing data. -/
def wantsIsbnLookup (b : Book) : Bool :=
  if !jsStrTruthy b.purchaseUrl then false
  else
    match extractAsin b.purchaseUrl with
    | none => false
    | some asin => if !isLikelyIsbn asin then false else isMissingData b

/-- The Phase-1 candidate filter of the scheduler. -/
def phase1Cand (now : Int) (nd : List (String × Int)) (b : Book) : Bool :=
  if shouldSkip now nd b.id then false
  else wantsIsbnLookup b

/-- The Phase-2 candidate filter of the scheduler (before the per-run cap). -/
def phase2Cand (now : Int) (nd : List (String × Int)) (b : Book) : Bool :=
  jsStrTruthy b.title && isMissingData b && !shouldSkip now nd b.id

/-- The update patch both phases build from a lookup result: fill page
count, published date, thumbnail and description only when the record's
field is empty (published date also when year-only), and genre only when
the record has none and the result has categories. -/
def buildUpdates (book : Book) (r : GoogleBookResult) : BookPatch :=
  { emptyPatch with
    pageCount := if book.pageCount == 0 && !(r.pageCount == 0) then some r.pageCount else none
    publishedDate :=
      if (!jsStrTruthy book.publishedDate || decide (book.publishedDate.length ≤ 4))
          && jsStrTruthy r.publishedDate then some r.publishedDate else none
    thumbnail :=
      if !jsTruthyOptStr book.thumbnail && jsTruthyOptStr r.thumbnail
      then some r.thumbnail else none
    description :=
      match r.description with
      | some d => if !jsStrTruthy book.description && jsStrTruthy d then some d else none
      | none => none
    genre :=
      if !jsStrTruthy book.genre && decide (r.categories.length > 0)
      then some (mapCategoryToGenre r.categories) else none }

/-- What one searchByIsbn call of Phase 1 amounts to, as the scheduler sees
it: a result, null, the rate-limit condition, or some other error. -/
inductive LookupOutcome
  | found (r : GoogleBookResult)
  | noData
  | rateLimited
  | otherError
deriving DecidableEq, Repr

/-- What one searchBooks call of Phase 2 amounts to: a result list, the
rate-limit condition, or some other error. -/
inductive SearchOutcome
  | results (rs : List GoogleBookResult)
  | rateLimited
  | otherError
deriving DecidableEq, Repr

/-- A provider request issued by the scheduler, tagged with its phase and
the candidate record id. -/
inductive Req
  | phase1 (bookId : String)
  | phase2 (bookId : String)
deriving DecidableEq, Repr

/-- Is a request a Phase-1 request. -/
def isPhase1Req : Req → Bool
  | .phase1 _ => true
  | .phase2 _ => false

/-- The state threaded through the two sequential loops: the record store,
the in-memory negative cache, the updated flag, and the requests issued. -/
structure LoopOut where
  books : List Book
  noData : List (String × Int)
  updated : Bool
  reqs : List Req
deriving DecidableEq, Repr

/-- The Phase-1 loop: for each candidate issue the ISBN lookup; on the
rate-limit condition break, on another error skip, on null mark the
negative cache, on a result apply the non-empty patch or mark the cache. -/
def phase1Loop (now : Int) (nowIso : String) (e1 : String → LookupOutcome) :
    List Book → LoopOut → LoopOut
  | [], acc => acc
  | book :: rest, acc =>
    let acc1 : LoopOut := { acc with reqs := acc.reqs ++ [Req.phase1 book.id] }
    match e1 book.id with
    | .rateLimited => acc1
    | .otherError => phase1Loop now nowIso e1 rest acc1
    | .noData => phase1Loop now nowIso e1 rest { acc1 with noData := setTs acc1.noData book.id now }
    | .found r =>
      let p := buildUpdates book r
      if patchNonempty p then
        phase1Loop now nowIso e1 rest
          { acc1 with books := updateBook acc1.books book.id p nowIso, updated := true }
      else
        phase1Loop now nowIso e1 rest { acc1 with noData := setTs acc1.noData book.id now }

/-- The Phase-2 loop: for each candidate issue the title search; on the
rate-limit condition break, on another error skip, on an empty result list
mark the negative cache, on a top result apply the non-empty patch or mark
the cache. -/
def phase2Loop (now : Int) (nowIso : String) (e2 : String → SearchOutcome) :
    List Book → LoopOut → LoopOut
  | [], acc => acc
  | book :: rest, acc =>
    let acc1 : LoopOut := { acc with reqs := acc.reqs ++ [Req.phase2 book.id] }
    match e2 book.id with
    | .rateLimited => acc1
    | .otherError => phase2Loop now nowIso e2 rest acc1
    | .results [] => phase2Loop now nowIso e2 rest { acc1 with noData := setTs acc1.noData book.id now }
    | .results (r :: _) =>
      let p := buildUpdates book r
      if patchNonempty p then
        phase2Loop now nowIso e2 rest
          { acc1 with books := updateBook acc1.books book.id p nowIso, updated := true }
      else
        phase2Loop now nowIso e2 rest { acc1 with noData := setTs acc1.noData book.id now }

/-- The durable state the scheduler reads and writes: the record store and
the two scheduling slots. -/
structure SchedState where
  books : List Book
  lastRun : Option String
  noData : CacheSlot
deriving DecidableEq, Repr

/-- The cooldown guard: the stored value must be truthy, and then
Date.now() minus its Number value must be under 24 hours. A value parsed
as NaN makes the comparison false (the guard never fires); positive
infinity makes it true forever; a finite value m times 10 to the e is
compared exactly (now minus v under ONE_DAY rearranged to now minus
ONE_DAY under v). -/
def cooldownActive (now : Int) (lastRun : Option String) : Bool :=
  match lastRun with
  | none => false
  | some s =>
    if !jsStrTruthy s then false
    else
      match jsNumberParse s with
      | JSNum.nan => false
      | JSNum.posInf => true
      | JSNum.negInf => false
      | JSNum.finite m e => jsLtVal (now - ONE_DAY) m e

/-- The Phase-1 candidate list of a run, from the pre-run record set and the
purged negative cache. -/
def phase1Candidates (now : Int) (slot : CacheSlot) (books : List Book) : List Book :=
  books.filter (phase1Cand now (purgeNoData now (getNoDataSet slot)))

/-- The body of a run past the cooldown check: purge the cache, run Phase 1
over its candidates, recompute the Phase-2 candidates from the post-Phase-1
record set capped at 30, run Phase 2, and persist the cache and the
timestamp unconditionally. -/
def runBody (now : Int) (nowIso : String) (e1 : String → LookupOutcome)
    (e2 : String → SearchOutcome) (books0 : List Book) (slot : CacheSlot) :
    SchedState × List Req :=
  let nd0 := purgeNoData now (getNoDataSet slot)
  let o1 := phase1Loop now nowIso e1 (books0.filter (phase1Cand now nd0))
    { books := books0, noData := nd0, updated := false, reqs := [] }
  let afterPhase1 := if o1.updated then o1.books else books0
  let cand2 := (afterPhase1.filter (phase2Cand now o1.noData)).take MAX_GOOGLE_PER_SESSION
  let o2 := phase2Loop now nowIso e2 cand2 o1
  ({ books := o2.books, lastRun := some (timeString now), noData := CacheSlot.valid o2.noData },
   o2.reqs)

/-- backfillBookData: the whole scheduler run, a no-op when the cooldown
guard fires. Returns the new durable state and the provider requests
issued, in order. -/
def backfill (now : Int) (nowIso : String) (e1 : String → LookupOutcome)
    (e2 : String → SearchOutcome) (st : SchedState) : SchedState × List Req :=
  if cooldownActive now st.lastRun then (st, [])
  else runBody now nowIso e1 e2 st.books st.noData

-- ==========================================================================
-- Claim-side definitions and concrete instances used in witnesses
-- ==========================================================================

/-- The weighted digit sum of the ISBN-13 checksum as the claim states it:
weight 1 at even 0-based positions, weight 3 at odd positions. -/
def weightedSum : List Char → Nat → Nat
  | [], _ => 0
  | c :: cs, i => charDigit c * (if i % 2 = 0 then 1 else 3) + weightedSum cs (i + 1)

/-- A concrete registry-side result for the C1 witness: year-only published
date, no thumbnail, nonempty description, page count 0. -/
def w1Base : GoogleBookResult :=
  { id := "openbd-1", title := "T", authors := [], categories := [],
    publishedDate := "2020", pageCount := 0, thumbnail := none, description := some "D" }

/-- A concrete raw search item for the C1 witness. -/
def w1Item : VolumeItem :=
  { id := "g1",
    volumeInfo :=
      { title := some "T", authors := none, categories := none,
        publishedDate := some "2020-01-01", pageCount := some 250,
        description := some "GD", imageLinksThumbnail := some "TH",
        imageLinksSmallThumbnail := none } }

/-- A concrete book for the scheduler witnesses: missing every enrichable
field, with an ISBN-shaped purchase URL. -/
def wBook : Book :=
  { id := "b1", title := "T", author := "A", genre := "", publishedDate := "",
    status := "tsundoku", pageCount := 0, rating := 0, memo := "", description := "",
    thumbnail := none, purchaseUrl := "/dp/4000000000", finishedDate := none,
    createdAt := "c", updatedAt := "u" }

/-- Agreement of the frame fields of two records: everything except the
five enrichable fields and updatedAt. -/
def frameAgrees (b b2 : Book) : Prop :=
  b2.id = b.id ∧ b2.title = b.title ∧ b2.author = b.author ∧ b2.status = b.status ∧
  b2.rating = b.rating ∧ b2.memo = b.memo ∧ b2.purchaseUrl = b.purchaseUrl ∧
  b2.finishedDate = b.finishedDate ∧ b2.createdAt = b.createdAt

-- ==========================================================================
-- Helper lemmas
-- ==========================================================================

/-- A string is truthy exactly when it is not empty. -/
theorem jsStrTruthy_iff (s : String) : jsStrTruthy s = true ↔ s ≠ "" := by
  simp [jsStrTruthy]

/-- A string is falsy exactly when it is empty. -/
theorem jsStrTruthy_eq_false_iff (s : String) : jsStrTruthy s = false ↔ s = "" := by
  simp [jsStrTruthy]

/-- A nullable string is falsy exactly when it is null or empty. -/
theorem jsTruthyOptStr_eq_false_iff (o : Option String) :
    jsTruthyOptStr o = false ↔ (o = none ∨ o = some "") := by
  cases o with
  | none => simp [jsTruthyOptStr]
  | some s => simp [jsTruthyOptStr, jsStrTruthy]

/-- A nullable string is truthy exactly when it is a nonempty string. -/
theorem jsTruthyOptStr_eq_true_iff (o : Option String) :
    jsTruthyOptStr o = true ↔ ∃ s, o = some s ∧ s ≠ "" := by
  cases o with
  | none => simp [jsTruthyOptStr]
  | some s => simp [jsTruthyOptStr, jsStrTruthy]

/-- A nullable string is truthy exactly when it is neither null nor empty. -/
theorem jsTruthyOptStr_eq_true_iff2 (o : Option String) :
    jsTruthyOptStr o = true ↔ ¬(o = none ∨ o = some "") := by
  cases o with
  | none => simp [jsTruthyOptStr]
  | some s => simp [jsTruthyOptStr, jsStrTruthy]

-- ==========================================================================
-- Claim theorems
-- ==========================================================================

/-- The first merge assignment only writes the thumbnail. -/
theorem mergeStep1_fields (b g : GoogleBookResult) :
    (mergeStep1 b g).thumbnail =
      (if !jsTruthyOptStr b.thumbnail && jsTruthyOptStr g.thumbnail
       then g.thumbnail else b.thumbnail) ∧
    (mergeStep1 b g).id = b.id ∧ (mergeStep1 b g).title = b.title ∧
    (mergeStep1 b g).authors = b.authors ∧ (mergeStep1 b g).categories = b.categories ∧
    (mergeStep1 b g).publishedDate = b.publishedDate ∧
    (mergeStep1 b g).pageCount = b.pageCount ∧
    (mergeStep1 b g).description = b.description := by
  unfold mergeStep1
  split <;> simp_all

/-- The second merge assignment only writes the description. -/
theorem mergeStep2_fields (b g : GoogleBookResult) :
    (mergeStep2 b g).description =
      (if !jsTruthyOptStr b.description && jsTruthyOptStr g.description
       then g.description else b.description) ∧
    (mergeStep2 b g).id = b.id ∧ (mergeStep2 b g).title = b.title ∧
    (mergeStep2 b g).authors = b.authors ∧ (mergeStep2 b g).categories = b.categories ∧
    (mergeStep2 b g).publishedDate = b.publishedDate ∧
    (mergeStep2 b g).pageCount = b.pageCount ∧
    (mergeStep2 b g).thumbnail = b.thumbnail := by
  unfold mergeStep2
  split <;> simp_all

/-- The third merge assignment only writes the page count. -/
theorem mergeStep3_fields (b g : GoogleBookResult) :
    (mergeStep3 b g).pageCount =
      (if b.pageCount == 0 && !(g.pageCount == 0) then g.pageCount else b.pageCount) ∧
    (mergeStep3 b g).id = b.id ∧ (mergeStep3 b g).title = b.title ∧
    (mergeStep3 b g).authors = b.authors ∧ (mergeStep3 b g).categories = b.categories ∧
    (mergeStep3 b g).publishedDate = b.publishedDate ∧
    (mergeStep3 b g).description = b.description ∧
    (mergeStep3 b g).thumbnail = b.thumbnail := by
  unfold mergeStep3
  split <;> simp_all

/-- The fourth merge assignment only writes the published date. -/
theorem mergeStep4_fields (b g : GoogleBookResult) :
    (mergeStep4 b g).publishedDate =
      (if (!jsStrTruthy b.publishedDate || decide (b.publishedDate.length ≤ 4))
          && jsStrTruthy g.publishedDate then g.publishedDate else b.publishedDate) ∧
    (mergeStep4 b g).id = b.id ∧ (mergeStep4 b g).title = b.title ∧
    (mergeStep4 b g).authors = b.authors ∧ (mergeStep4 b g).categories = b.categories ∧
    (mergeStep4 b g).pageCount = b.pageCount ∧
    (mergeStep4 b g).description = b.description ∧
    (mergeStep4 b g).thumbnail = b.thumbnail := by
  unfold mergeStep4
  split <;> simp_all

/-- The fifth merge assignment only writes the categories. -/
theorem mergeStep5_fields (b g : GoogleBookResult) :
    (mergeStep5 b g).categories =
      (if b.categories.length == 0 && decide (g.categories.length > 0)
       then g.categories else b.categories) ∧
    (mergeStep5 b g).id = b.id ∧ (mergeStep5 b g).title = b.title ∧
    (mergeStep5 b g).authors = b.authors ∧ (mergeStep5 b g).publishedDate = b.publishedDate ∧
    (mergeStep5 b g).pageCount = b.pageCount ∧
    (mergeStep5 b g).description = b.description ∧
    (mergeStep5 b g).thumbnail = b.thumbnail := by
  unfold mergeStep5
  split <;> simp_all

/-- Claim C1: in a single-ISBN lookup with both the registry result and the
general-search result non-null, the merged record is the registry record
with thumbnail, description, page count and categories taken from the
search result only when the registry field is empty, zero or null, and the
published date taken from the search result also when the registry value
has at most 4 characters; a nonempty registry description is never changed. -/
theorem C1_merge_precedence (b g : GoogleBookResult) (f : GoogleFetch) :
    (googleIsbnRaw f = GoogleRaw.found g →
      searchByIsbnModel (some b) f = Except.ok (some (mergeResults b g))) ∧
    (mergeResults b g).id = b.id ∧
    (mergeResults b g).title = b.title ∧
    (mergeResults b g).authors = b.authors ∧
    (mergeResults b g).thumbnail =
      (if (b.thumbnail = none ∨ b.thumbnail = some "") ∧
          ¬(g.thumbnail = none ∨ g.thumbnail = some "")
       then g.thumbnail else b.thumbnail) ∧
    (mergeResults b g).description =
      (if (b.description = none ∨ b.description = some "") ∧
          ¬(g.description = none ∨ g.description = some "")
       then g.description else b.description) ∧
    (mergeResults b g).pageCount =
      (if b.pageCount = 0 ∧ g.pageCount ≠ 0 then g.pageCount else b.pageCount) ∧
    (mergeResults b g).categories =
      (if b.categories = [] ∧ g.categories ≠ [] then g.categories else b.categories) ∧
    (mergeResults b g).publishedDate =
      (if (b.publishedDate = "" ∨ b.publishedDate.length ≤ 4) ∧ g.publishedDate ≠ ""
       then g.publishedDate else b.publishedDate) ∧
    (∀ s, b.description = some s → s ≠ "" → (mergeResults b g).description = b.description) := by
  have h1 := mergeStep1_fields b g
  have h2 := mergeStep2_fields (mergeStep1 b g) g
  have h3 := mergeStep3_fields (mergeStep2 (mergeStep1 b g) g) g
  have h4 := mergeStep4_fields (mergeStep3 (mergeStep2 (mergeStep1 b g) g) g) g
  have h5 := mergeStep5_fields (mergeStep4 (mergeStep3 (mergeStep2 (mergeStep1 b g) g) g) g) g
  obtain ⟨e1, f1a, f1b, f1c, f1d, f1e, f1f, f1g⟩ := h1
  obtain ⟨e2, f2a, f2b, f2c, f2d, f2e, f2f, f2g⟩ := h2
  obtain ⟨e3, f3a, f3b, f3c, f3d, f3e, f3f, f3g⟩ := h3
  obtain ⟨e4, f4a, f4b, f4c, f4d, f4e, f4f, f4g⟩ := h4
  obtain ⟨e5, f5a, f5b, f5c, f5d, f5e, f5f, f5g⟩ := h5
  refine ⟨?_, ?_, ?_, ?_, ?_, ?_, ?_, ?_, ?_, ?_⟩
  · intro hf
    simp [searchByIsbnModel, hf]
  · simp only [mergeResults]
    rw [f5a, f4a, f3a, f2a, f1a]
  · simp only [mergeResults]
    rw [f5b, f4b, f3b, f2b, f1b]
  · simp only [mergeResults]
    rw [f5c, f4c, f3c, f2c, f1c]
  · simp only [mergeResults]
    rw [f5g, f4g, f3g, f2g, e1]
    simp only [Bool.and_eq_true, Bool.not_eq_true', jsTruthyOptStr_eq_false_iff,
      jsTruthyOptStr_eq_true_iff2]
  · simp only [mergeResults]
    rw [f5f, f4f, f3f, e2, f1g]
    simp only [Bool.and_eq_true, Bool.not_eq_true', jsTruthyOptStr_eq_false_iff,
      jsTruthyOptStr_eq_true_iff2]
  · simp only [mergeResults]
    rw [f5e, f4e, e3, f2f, f1f]
    simp only [Bool.and_eq_true, Bool.not_eq_true', beq_iff_eq, beq_eq_false_iff_ne, ne_eq]
  · simp only [mergeResults]
    rw [e5, f4d, f3d, f2d, f1d]
    simp only [Bool.and_eq_true, beq_iff_eq, decide_eq_true_eq, List.length_eq_zero,
      List.length_pos, ne_eq]
  · simp only [mergeResults]
    rw [f5d, e4, f3e, f2e, f1e]
    simp only [Bool.and_eq_true, Bool.or_eq_true, Bool.not_eq_true', jsStrTruthy_eq_false_iff,
      jsStrTruthy_iff, decide_eq_true_eq, ne_eq]
  · intro t ht hne
    simp only [mergeResults]
    rw [f5f, f4f, f3f, e2, f1g, ht]
    have : jsTruthyOptStr (some t) = true := by
      simp [jsTruthyOptStr_eq_true_iff, hne]
    simp [this, ht]

/-- Concrete instance of C1: the year-only registry date is replaced by the
full search date, the missing thumbnail is supplemented, and the nonempty
registry description is unchanged. -/
theorem C1_merge_precedence_witness :
    searchByIsbnModel (some w1Base) (GoogleFetch.response 200 (some [w1Item])) =
      Except.ok (some (mergeResults w1Base (mapVolumeToResult w1Item))) ∧
    (mergeResults w1Base (mapVolumeToResult w1Item)).publishedDate = "2020-01-01" ∧
    (mergeResults w1Base (mapVolumeToResult w1Item)).thumbnail = some "TH" ∧
    (mergeResults w1Base (mapVolumeToResult w1Item)).description = some "D" := by
  refine ⟨(C1_merge_precedence w1Base (mapVolumeToResult w1Item)
      (GoogleFetch.response 200 (some [w1Item]))).1 (by decide), by decide, by decide, ?_⟩
  exact (C1_merge_precedence w1Base (mapVolumeToResult w1Item)
      (GoogleFetch.response 200 (some [w1Item]))).2.2.2.2.2.2.2.2.2 "D" (by decide) (by decide)

/-- The google side of searchByIsbn resolves to the rate-limit marker
exactly on HTTP status 429. -/
theorem googleIsbnRaw_rateLimited_iff (f : GoogleFetch) :
    googleIsbnRaw f = GoogleRaw.rateLimited ↔
      ∃ items, f = GoogleFetch.response 429 items := by
  cases f with
  | failure => simp [googleIsbnRaw]
  | response status items =>
    by_cases h : status = 429
    · subst h
      simp [googleIsbnRaw]
    · constructor
      · intro hc
        exfalso
        simp only [googleIsbnRaw, if_neg h] at hc
        by_cases hok : (!resOk status) = true
        · rw [if_pos hok] at hc
          exact absurd hc (by simp)
        · rw [if_neg hok] at hc
          rcases items with _ | ⟨_ | ⟨it, its⟩⟩ <;> simp_all
      · rintro ⟨its, heq⟩
        injection heq with h1 h2
        exact absurd h1 h

/-- With no registry result, searchByIsbn raises exactly when the google
side resolved to the rate-limit marker. -/
theorem searchByIsbnModel_none_error (f : GoogleFetch) :
    searchByIsbnModel none f = Except.error BooksError.rateLimit ↔
      googleIsbnRaw f = GoogleRaw.rateLimited := by
  unfold searchByIsbnModel
  rcases hg : googleIsbnRaw f with _ | _ | r <;> simp [hg]

/-- Claim C4: when the registry yields nothing, searchByIsbn returns the
general-search result if present, raises the rate-limit condition exactly
when the general-search side failed with HTTP status 429, and returns null
on every other general-search failure (other non-success status, empty or
missing item list, transport failure). -/
theorem C4_no_registry (f : GoogleFetch) :
    (∀ r, googleIsbnRaw f = GoogleRaw.found r →
        searchByIsbnModel none f = Except.ok (some r)) ∧
    (searchByIsbnModel none f = Except.error BooksError.rateLimit ↔
        ∃ items, f = GoogleFetch.response 429 items) ∧
    (googleIsbnRaw f = GoogleRaw.noResult → searchByIsbnModel none f = Except.ok none) ∧
    (∀ status items, f = GoogleFetch.response status items → status ≠ 429 →
        (resOk status = false ∨ items = some [] ∨ items = none) →
        searchByIsbnModel none f = Except.ok none) ∧
    (f = GoogleFetch.failure → searchByIsbnModel none f = Except.ok none) := by
  refine ⟨?_, ?_, ?_, ?_, ?_⟩
  · intro r hr
    simp [searchByIsbnModel, hr]
  · rw [searchByIsbnModel_none_error]
    exact googleIsbnRaw_rateLimited_iff f
  · intro hg
    simp [searchByIsbnModel, hg]
  · intro status items hf h429 hfail
    subst hf
    have hg : googleIsbnRaw (GoogleFetch.response status items) = GoogleRaw.noResult := by
      rcases hfail with hok | hempty | hnone
      · simp [googleIsbnRaw, h429, hok]
      · subst hempty
        by_cases hok : resOk status <;> simp [googleIsbnRaw, h429, hok]
      · subst hnone
        by_cases hok : resOk status <;> simp [googleIsbnRaw, h429, hok]
    simp [searchByIsbnModel, hg]
  · intro hf
    subst hf
    simp [searchByIsbnModel, googleIsbnRaw]

/-- Concrete instance of C4: a 500-status response yields null, a 429
response raises the rate-limit condition, a found item is returned. -/
theorem C4_no_registry_witness :
    searchByIsbnModel none (GoogleFetch.response 500 none) = Except.ok none ∧
    searchByIsbnModel none (GoogleFetch.response 429 none) =
      Except.error BooksError.rateLimit ∧
    searchByIsbnModel none (GoogleFetch.response 200 (some [w1Item])) =
      Except.ok (some (mapVolumeToResult w1Item)) := by
  refine ⟨?_, ?_, ?_⟩
  · exact (C4_no_registry (GoogleFetch.response 500 none)).2.2.2.1 500 none rfl
      (by decide) (Or.inl (by decide))
  · exact ((C4_no_registry (GoogleFetch.response 429 none)).2.1).2 ⟨none, rfl⟩
  · exact (C4_no_registry (GoogleFetch.response 200 (some [w1Item]))).1
      (mapVolumeToResult w1Item) (by decide)

/-- Claim C8: the ISBN-registry adapter returns null, and never raises,
whenever the remote response is empty, malformed, or lacks a title: a
non-success status, a null body, an empty array, a null first element, or
a first element whose summary has no title all yield null; and such a null
registry side never aborts the overall merge, which can only raise for the
quota status of the general-search side. -/
theorem C8_openbd_null_paths (isbn : String) :
    (∀ data, searchByIsbnOpenBD isbn (OpenBDFetch.response false data) = none) ∧
    (searchByIsbnOpenBD isbn (OpenBDFetch.response true none) = none) ∧
    (searchByIsbnOpenBD isbn (OpenBDFetch.response true (some [])) = none) ∧
    (∀ rest, searchByIsbnOpenBD isbn (OpenBDFetch.response true (some (none :: rest))) = none) ∧
    (∀ b rest, b.summary.title = "" →
        searchByIsbnOpenBD isbn (OpenBDFetch.response true (some (some b :: rest))) = none) ∧
    (∀ f, searchByIsbnModel none f = Except.error BooksError.rateLimit →
        ∃ items, f = GoogleFetch.response 429 items) := by
  refine ⟨?_, ?_, ?_, ?_, ?_, ?_⟩
  · intro data
    simp [searchByIsbnOpenBD]
  · simp [searchByIsbnOpenBD]
  · simp [searchByIsbnOpenBD]
  · intro rest
    simp [searchByIsbnOpenBD]
  · intro b rest ht
    simp [searchByIsbnOpenBD, jsStrTruthy, ht]
  · intro f hf
    exact (googleIsbnRaw_rateLimited_iff f).mp ((searchByIsbnModel_none_error f).mp hf)

/-- Concrete instance of C8: a null first element yields null, a missing
title yields null. -/
theorem C8_openbd_null_paths_witness :
    searchByIsbnOpenBD "4000000000" (OpenBDFetch.response true (some [none])) = none ∧
    searchByIsbnOpenBD "4000000000"
      (OpenBDFetch.response true
        (some [some { summary := { title := "", author := "", pubdate := "", cover := "" },
                      onix := none }])) = none := by
  refine ⟨?_, ?_⟩
  · exact (C8_openbd_null_paths "4000000000").2.2.2.1 []
  · exact (C8_openbd_null_paths "4000000000").2.2.2.2.1
      { summary := { title := "", author := "", pubdate := "", cover := "" }, onix := none }
      [] rfl

/-- The find? of a decomposed list: the first satisfying element wins. -/
theorem find_first {α : Type} (p : α → Bool) :
    ∀ (l1 : List α) (x : α) (l2 : List α), (∀ y ∈ l1, p y = false) → p x = true →
      List.find? p (l1 ++ x :: l2) = some x := by
  intro l1
  induction l1 with
  | nil =>
    intro x l2 _ hx
    simp [List.find?, hx]
  | cons a l ih =>
    intro x l2 hall hx
    have ha : p a = false := hall a (List.mem_cons_self a l)
    simp only [List.cons_append, List.find?, ha]
    exact ih x l2 (fun y hy => hall y (List.mem_cons_of_mem a hy)) hx

/-- If no category matches, the iteration finds nothing. -/
theorem firstCatMatch_eq_none :
    ∀ cats : List String, (∀ c ∈ cats, matchCat c = none) → firstCatMatch cats = none := by
  intro cats
  induction cats with
  | nil => intro _; rfl
  | cons c cs ih =>
    intro hall
    have hc : matchCat c = none := hall c (List.mem_cons_self c cs)
    simp only [firstCatMatch, hc]
    exact ih (fun d hd => hall d (List.mem_cons_of_mem c hd))

/-- The first category with a match determines the iteration result. -/
theorem firstCatMatch_append :
    ∀ (pre : List String) (c : String) (post : List String) (v : String),
      (∀ p ∈ pre, matchCat p = none) → matchCat c = some v →
      firstCatMatch (pre ++ c :: post) = some v := by
  intro pre
  induction pre with
  | nil =>
    intro c post v _ hc
    simp [firstCatMatch, hc]
  | cons a l ih =>
    intro c post v hall hc
    have ha : matchCat a = none := hall a (List.mem_cons_self a l)
    simp only [List.cons_append, firstCatMatch, ha]
    exact ih c post v (fun y hy => hall y (List.mem_cons_of_mem a hy)) hc

/-- Claim C7: mapCategoryToGenre iterates the categories in order, trying
for each an exact case-sensitive table lookup and then a case-insensitive
substring match against the table keys in declaration order, the first hit
winning; the first matching category determines the label, and with no
match anywhere the first input category (or the empty string) is returned. -/
theorem C7_genre_classification :
    (mapCategoryToGenre [] = "") ∧
    (∀ c cs v, matchCat c = some v → mapCategoryToGenre (c :: cs) = v) ∧
    (∀ pre c post v, (∀ p ∈ pre, matchCat p = none) → matchCat c = some v →
        mapCategoryToGenre (pre ++ c :: post) = v) ∧
    (∀ cats, (∀ c ∈ cats, matchCat c = none) → mapCategoryToGenre cats = cats.headD "") ∧
    (∀ c v, lookupExact c = some v → matchCat c = some v) ∧
    (∀ c, lookupExact c = none → matchCat c = lookupSubstr c) ∧
    (∀ c pre kv post, lookupExact c = none → CATEGORY_MAP = pre ++ kv :: post →
        (∀ p ∈ pre, strIncludes (strLower c) (strLower p.1) = false) →
        strIncludes (strLower c) (strLower kv.1) = true →
        matchCat c = some kv.2) := by
  refine ⟨rfl, ?_, ?_, ?_, ?_, ?_, ?_⟩
  · intro c cs v hc
    simp [mapCategoryToGenre, firstCatMatch, hc]
  · intro pre c post v hall hc
    simp [mapCategoryToGenre, firstCatMatch_append pre c post v hall hc]
  · intro cats hall
    simp [mapCategoryToGenre, firstCatMatch_eq_none cats hall]
  · intro c v hc
    simp [matchCat, hc]
  · intro c hc
    simp [matchCat, hc]
  · intro c pre kv post hex hmap hall hkv
    have hfind : CATEGORY_MAP.find? (fun p => strIncludes (strLower c) (strLower p.1)) = some kv := by
      rw [hmap]
      exact find_first _ pre kv post hall hkv
    simp [matchCat, hex, lookupSubstr, hfind]

/-- Concrete instance of C7: an exact key maps to its label, a longer label
matches by substring, an unknown category is returned verbatim. -/
theorem C7_genre_classification_witness :
    mapCategoryToGenre ["Fiction"] = "文学・評論" ∧
    mapCategoryToGenre ["Science Fiction"] = "文学・評論" ∧
    mapCategoryToGenre ["Unknown Thing"] = "Unknown Thing" := by
  refine ⟨?_, ?_, ?_⟩
  · exact (C7_genre_classification).2.1 "Fiction" [] "文学・評論" (by decide)
  · exact (C7_genre_classification).2.1 "Science Fiction" [] "文学・評論" (by decide)
  · exact (C7_genre_classification).2.2.2.1 ["Unknown Thing"] (by decide)

/-- Character form of a decimal digit below 10: digit test and value. -/
theorem digitChar_props (d : Nat) (h : d < 10) :
    (Char.ofNat (48 + d)).isDigit = true ∧ charDigit (Char.ofNat (48 + d)) = d := by
  interval_cases d <;> exact ⟨by decide, by decide⟩

/-- On all-digit characters the NaN-propagating sum loop computes the
weighted sum. -/
theorem sumLoop_all_digits :
    ∀ (l : List Char) (i : Nat), l.all Char.isDigit = true →
      sumLoop l i = some (weightedSum l i) := by
  intro l
  induction l with
  | nil => intro i _; rfl
  | cons c cs ih =>
    intro i hall
    rw [List.all_cons, Bool.and_eq_true] at hall
    simp only [sumLoop, hall.1, if_pos, weightedSum, ih (i + 1) hall.2]

/-- The weighted sum splits over append with the index shifted. -/
theorem weightedSum_append :
    ∀ (xs ys : List Char) (i : Nat),
      weightedSum (xs ++ ys) i = weightedSum xs i + weightedSum ys (i + xs.length) := by
  intro xs
  induction xs with
  | nil => intro ys i; simp [weightedSum]
  | cons c cs ih =>
    intro ys i
    simp only [List.cons_append, weightedSum, List.append_eq]
    rw [ih ys (i + 1), List.length_cons]
    have h2 : i + 1 + cs.length = i + (cs.length + 1) := by omega
    rw [h2, Nat.add_assoc]

/-- Claim C6: on a 10-character input whose first 9 characters are digits,
isbn10to13 returns 978, the first 9 characters, and the complement check
digit of the weighted sum; the output has 13 characters and satisfies the
ISBN-13 checksum identity. -/
theorem C6_isbn10to13 (s : String) (h10 : s.length = 10)
    (hd : (s.data.take 9).all Char.isDigit = true) :
    isbn10to13 s =
      String.mk ("978".data ++ s.data.take 9 ++
        [Char.ofNat (48 + (10 - (weightedSum ("978".data ++ s.data.take 9) 0) % 10) % 10)]) ∧
    (isbn10to13 s).length = 13 ∧
    (weightedSum (isbn10to13 s).data 0) % 10 = 0 := by
  have hlen : s.data.length = 10 := h10
  have htake : (s.data.take 9).length = 9 := by
    rw [List.length_take]
    omega
  have hbase : ("978".data ++ s.data.take 9).length = 12 := by
    rw [List.length_append, htake]
    rfl
  have hall : ("978".data ++ s.data.take 9).all Char.isDigit = true := by
    have h978 : ("978".data).all Char.isDigit = true := by decide
    rw [List.all_append, h978, hd]
    decide
  have hsum := sumLoop_all_digits ("978".data ++ s.data.take 9) 0 hall
  have heq : isbn10to13 s =
      String.mk ("978".data ++ s.data.take 9 ++
        [Char.ofNat (48 + (10 - (weightedSum ("978".data ++ s.data.take 9) 0) % 10) % 10)]) := by
    simp only [isbn10to13, hbase, hsum]
    norm_num
  refine ⟨heq, ?_, ?_⟩
  · rw [heq]
    show ("978".data ++ s.data.take 9 ++ [_]).length = 13
    rw [List.length_append, hbase]
    rfl
  · rw [heq]
    show weightedSum ("978".data ++ s.data.take 9 ++ [_]) 0 % 10 = 0
    rw [weightedSum_append, hbase]
    generalize weightedSum ("978".data ++ s.data.take 9) 0 = S
    have hc : (10 - S % 10) % 10 < 10 := Nat.mod_lt _ (by omega)
    obtain ⟨_, hval⟩ := digitChar_props _ hc
    have hsingle : weightedSum [Char.ofNat (48 + (10 - S % 10) % 10)] (0 + 12) =
        (10 - S % 10) % 10 := by
      simp only [weightedSum]
      rw [hval]
      norm_num
    rw [hsingle]
    omega

/-- Concrete instance of C6: a real ISBN-10 converts to its ISBN-13 form and
the result satisfies the checksum identity. -/
theorem C6_isbn10to13_witness :
    isbn10to13 "4774142041" = "9784774142043" ∧
    (weightedSum (isbn10to13 "4774142041").data 0) % 10 = 0 := by
  have h := C6_isbn10to13 "4774142041" (by decide) (by decide)
  exact ⟨by rw [h.1]; decide, h.2.2⟩

/-- The stored timestamp string is truthy. -/
theorem timeString_truthy (n : Int) : jsStrTruthy (timeString n) = true := by
  unfold timeString
  by_cases h0 : n.toNat = 0
  · rw [if_pos h0]
    decide
  · rw [if_neg h0]
    have hne : Nat.digits 10 n.toNat ≠ [] := Nat.digits_ne_nil_iff_ne_zero.mpr h0
    simp only [jsStrTruthy, Bool.not_eq_true', beq_eq_false_iff_ne, ne_eq, String.ext_iff]
    simpa using hne

/-- Parsing back the stored timestamp string recovers the timestamp. -/
theorem jsNumber_timeString (n : Int) (h : 0 ≤ n) : jsNumber (timeString n) = some n := by
  by_cases h0 : n.toNat = 0
  · have hn : n = 0 := by omega
    subst hn
    decide
  · unfold timeString
    rw [if_neg h0]
    have hne : Nat.digits 10 n.toNat ≠ [] := Nat.digits_ne_nil_iff_ne_zero.mpr h0
    have hlt : ∀ d ∈ Nat.digits 10 n.toNat, d < 10 :=
      fun d hd => Nat.digits_lt_base (by norm_num) hd
    unfold jsNumber
    have hdata : (String.mk (((Nat.digits 10 n.toNat).map (fun d => Char.ofNat (48 + d))).reverse)).data
        = ((Nat.digits 10 n.toNat).map (fun d => Char.ofNat (48 + d))).reverse := rfl
    rw [hdata]
    have hne2 : ((Nat.digits 10 n.toNat).map (fun d => Char.ofNat (48 + d))).reverse ≠ [] := by
      simp [hne]
    have hall : (((Nat.digits 10 n.toNat).map (fun d => Char.ofNat (48 + d))).reverse).all
        Char.isDigit = true := by
      simp only [List.all_reverse, List.all_eq_true]
      intro c hc
      rw [List.mem_map] at hc
      obtain ⟨d, hd, rfl⟩ := hc
      exact (digitChar_props d (hlt d hd)).1
    rw [if_pos ⟨hne2, hall⟩]
    have hmaps : ((((Nat.digits 10 n.toNat).map (fun d => Char.ofNat (48 + d))).reverse).map
        charDigit).reverse = Nat.digits 10 n.toNat := by
      rw [List.map_reverse, List.reverse_reverse, List.map_map]
      have hcongr : ∀ d ∈ Nat.digits 10 n.toNat, (charDigit ∘ fun d => Char.ofNat (48 + d)) d = id d :=
        fun d hd => (digitChar_props d (hlt d hd)).2
      rw [List.map_congr_left hcongr, List.map_id]
    rw [hmaps, Nat.ofDigits_digits]
    exact congrArg some (by rw [Int.ofNat_eq_natCast]; exact Int.toNat_of_nonneg h)

/-- takeWhile keeps a list all of whose elements satisfy the test. -/
theorem takeWhile_eq_self_of_all (p : Char → Bool) :
    ∀ l : List Char, l.all p = true → l.takeWhile p = l := by
  intro l
  induction l with
  | nil => intro _; rfl
  | cons c r ih =>
    intro h
    rw [List.all_cons, Bool.and_eq_true] at h
    simp [List.takeWhile_cons, h.1, ih h.2]

/-- dropWhile empties a list all of whose elements satisfy the test. -/
theorem dropWhile_eq_nil_of_all (p : Char → Bool) :
    ∀ l : List Char, l.all p = true → l.dropWhile p = [] := by
  intro l
  induction l with
  | nil => intro _; rfl
  | cons c r ih =>
    intro h
    rw [List.all_cons, Bool.and_eq_true] at h
    simp [List.dropWhile_cons, h.1, ih h.2]

/-- A decimal digit is not a whitespace character. -/
theorem jsWs_of_digit (c : Char) (h : c.isDigit = true) : jsWs c = false := by
  have h1 : c ≠ ' ' := fun e => absurd (e ▸ h) (by decide)
  have h2 : c ≠ '\t' := fun e => absurd (e ▸ h) (by decide)
  have h3 : c ≠ '\n' := fun e => absurd (e ▸ h) (by decide)
  have h4 : c ≠ '\r' := fun e => absurd (e ▸ h) (by decide)
  simp [jsWs, h1, h2, h3, h4]

/-- Trimming whitespace is the identity on an all-digit list. -/
theorem trimWs_of_digits (l : List Char) (h : l.all Char.isDigit = true) : trimWs l = l := by
  have hdrop : ∀ m : List Char, m.all Char.isDigit = true → m.dropWhile jsWs = m := by
    intro m hm
    cases m with
    | nil => rfl
    | cons c r =>
      rw [List.all_cons, Bool.and_eq_true] at hm
      simp [List.dropWhile_cons, jsWs_of_digit c hm.1]
  unfold trimWs
  rw [hdrop l h, hdrop l.reverse (by simpa using h), List.reverse_reverse]

/-- The most-significant-first digit fold agrees with ofDigits of the
reversed digit list. -/
theorem digitsVal_eq_ofDigits :
    ∀ l : List Char, digitsVal l = Nat.ofDigits 10 ((l.map charDigit).reverse) := by
  intro l
  induction l using List.reverseRecOn with
  | nil => rfl
  | append_singleton xs c ih =>
    have h1 : digitsVal (xs ++ [c]) = digitsVal xs * 10 + charDigit c := by
      simp [digitsVal, List.foldl_append]
    rw [h1, ih, List.map_append, List.reverse_append]
    simp only [List.map_cons, List.map_nil, List.reverse_cons, List.reverse_nil,
      List.nil_append, List.cons_append, Nat.ofDigits_cons]
    ring

/-- An all-digit nonempty list parses as the plain decimal integer. -/
theorem parseUnsignedDec_digits (l : List Char) (hne : l ≠ [])
    (h : l.all Char.isDigit = true) :
    parseUnsignedDec l = some (Int.ofNat (digitsVal l), 0) := by
  have ht := takeWhile_eq_self_of_all Char.isDigit l h
  have hd := dropWhile_eq_nil_of_all Char.isDigit l h
  simp [parseUnsignedDec, ht, hd, parseExpPart, hne]

/-- An all-digit nonempty list is a signed decimal literal with its value. -/
theorem decSigned_digits (l : List Char) (hne : l ≠ [])
    (h : l.all Char.isDigit = true) :
    decSigned l = JSNum.finite (Int.ofNat (digitsVal l)) 0 := by
  obtain ⟨c, r, rfl⟩ := List.exists_cons_of_ne_nil hne
  have hcd : c.isDigit = true := by
    rw [List.all_cons, Bool.and_eq_true] at h
    exact h.1
  have hplus : ¬((c :: r).headD ' ' = '+' ∨ (c :: r).headD ' ' = '-') := by
    simp only [List.headD_cons]
    rintro (rfl | rfl) <;> exact absurd hcd (by decide)
  have hminus : ¬(c :: r).headD ' ' = '-' := fun e => hplus (Or.inr e)
  have hinf : ¬(c :: r = "Infinity".data) := by
    intro he
    have hci : c = 'I' := by
      have := congrArg (fun t => List.headD t ' ') he
      simpa using this
    rw [hci] at hcd
    exact absurd hcd (by decide)
  simp only [decSigned, List.headD_cons] at hplus hminus ⊢
  rw [if_neg hplus, if_neg hinf, parseUnsignedDec_digits (c :: r) hne h]
  simp [hminus]

/-- On the all-digit strings the program writes, the full Number parser
agrees with the restricted integer parser. -/
theorem jsNumberParse_digits (s : String) (n : Int) (h : jsNumber s = some n) :
    jsNumberParse s = JSNum.finite n 0 := by
  have hcond : s.data ≠ [] ∧ s.data.all Char.isDigit = true := by
    by_contra hc
    rw [jsNumber, if_neg hc] at h
    exact Option.noConfusion h
  have hn : Int.ofNat (digitsVal s.data) = n := by
    rw [jsNumber, if_pos hcond] at h
    rw [digitsVal_eq_ofDigits]
    exact Option.some.inj h
  have htrim : trimWs s.data = s.data := trimWs_of_digits s.data hcond.2
  have hdec : decSigned s.data = JSNum.finite n 0 := by
    rw [decSigned_digits s.data hcond.1 hcond.2, hn]
  obtain ⟨c, rest, hs⟩ := List.exists_cons_of_ne_nil hcond.1
  have hcd : c.isDigit = true := by
    rw [hs, List.all_cons, Bool.and_eq_true] at hcond
    exact hcond.2.1
  have htrim2 : trimWs (c :: rest) = c :: rest := by
    rw [← hs]
    exact htrim
  simp only [jsNumberParse, hs, htrim2]
  by_cases hc0 : c = '0'
  · rw [if_pos hc0]
    cases rest with
    | nil =>
      rw [← hs]
      exact hdec
    | cons x rest2 =>
      have hxd : x.isDigit = true := by
        rw [hs, List.all_cons, List.all_cons, Bool.and_eq_true, Bool.and_eq_true] at hcond
        exact hcond.2.2.1
      have hx1 : ¬(x = 'x' ∨ x = 'X') := by
        rintro (rfl | rfl) <;> exact absurd hxd (by decide)
      have hx2 : ¬(x = 'b' ∨ x = 'B') := by
        rintro (rfl | rfl) <;> exact absurd hxd (by decide)
      have hx3 : ¬(x = 'o' ∨ x = 'O') := by
        rintro (rfl | rfl) <;> exact absurd hxd (by decide)
      show (if x = 'x' ∨ x = 'X' then radixCase 16 hexDigitVal rest2
          else if x = 'b' ∨ x = 'B' then radixCase 2 binDigitVal rest2
          else if x = 'o' ∨ x = 'O' then radixCase 8 octDigitVal rest2
          else decSigned (c :: x :: rest2)) = JSNum.finite n 0
      rw [if_neg hx1, if_neg hx2, if_neg hx3, ← hs]
      exact hdec
  · rw [if_neg hc0, ← hs]
    exact hdec

/-- The cooldown guard on a freshly stored timestamp compares the ages. -/
theorem cooldownActive_timeString (now now2 : Int) (h : 0 ≤ now) :
    cooldownActive now2 (some (timeString now)) = decide (now2 - now < ONE_DAY) := by
  have hp := jsNumberParse_digits (timeString now) now (jsNumber_timeString now h)
  simp only [cooldownActive, timeString_truthy now, Bool.not_true, Bool.false_eq_true,
    if_false, hp, jsLtVal]
  rw [if_pos (by omega : (0 : Int) ≤ 0)]
  rw [decide_eq_decide]
  norm_num
  omega

/-- A run past the cooldown stores the run timestamp. -/
theorem runBody_lastRun (now : Int) (nowIso : String) (e1 : String → LookupOutcome)
    (e2 : String → SearchOutcome) (books0 : List Book) (slot : CacheSlot) :
    (runBody now nowIso e1 e2 books0 slot).1.lastRun = some (timeString now) := by
  simp [runBody]

/-- A run past the cooldown stores a parsed (valid) negative cache. -/
theorem runBody_noData_valid (now : Int) (nowIso : String) (e1 : String → LookupOutcome)
    (e2 : String → SearchOutcome) (books0 : List Book) (slot : CacheSlot) :
    ∃ m, (runBody now nowIso e1 e2 books0 slot).1.noData = CacheSlot.valid m := by
  simp only [runBody]
  exact ⟨_, rfl⟩

/-- A run whose cooldown guard fires returns the state unchanged. -/
theorem backfill_noop (now : Int) (nowIso : String) (e1 : String → LookupOutcome)
    (e2 : String → SearchOutcome) (st : SchedState)
    (h : cooldownActive now st.lastRun = true) :
    backfill now nowIso e1 e2 st = (st, []) := by
  simp [backfill, h]

/-- Claim C3: a stored last-run timestamp under 24 hours old makes the run
an immediate no-op after the cooldown check, leaving the record store, the
negative cache and the timestamp unchanged and issuing no request; hence a
second run within 24 hours of a completed run changes nothing. -/
theorem C3_cooldown_idempotence (now now2 : Int) (nowIso nowIso2 : String)
    (e1 e1b : String → LookupOutcome) (e2 e2b : String → SearchOutcome) (st : SchedState) :
    (∀ s n, st.lastRun = some s → s ≠ "" → jsNumber s = some n → now - n < ONE_DAY →
        backfill now nowIso e1 e2 st = (st, [])) ∧
    (0 ≤ now → cooldownActive now st.lastRun = false → now2 - now < ONE_DAY →
        backfill now2 nowIso2 e1b e2b (backfill now nowIso e1 e2 st).1 =
          ((backfill now nowIso e1 e2 st).1, [])) := by
  constructor
  · intro s n hs hse hn hlt
    have ht : jsStrTruthy s = true := by simp [jsStrTruthy, hse]
    have hcd : cooldownActive now st.lastRun = true := by
      rw [hs]
      have hp := jsNumberParse_digits s n hn
      simp only [cooldownActive, ht, Bool.not_true, Bool.false_eq_true, if_false, hp, jsLtVal]
      rw [if_pos (by omega : (0 : Int) ≤ 0)]
      norm_num
      omega
    exact backfill_noop now nowIso e1 e2 st hcd
  · intro hpos hcd hlt
    have h1 : (backfill now nowIso e1 e2 st).1.lastRun = some (timeString now) := by
      simp only [backfill, hcd]
      norm_num
      exact runBody_lastRun now nowIso e1 e2 st.books st.noData
    have hcd2 : cooldownActive now2 (backfill now nowIso e1 e2 st).1.lastRun = true := by
      rw [h1, cooldownActive_timeString now now2 hpos]
      simp [hlt]
    exact backfill_noop now2 nowIso2 e1b e2b (backfill now nowIso e1 e2 st).1 hcd2

/-- Concrete instance of C3: a run 5 ms after the stored timestamp is a
no-op, and a second run 1 ms after a completed run changes nothing. -/
theorem C3_cooldown_idempotence_witness :
    backfill 10 "t" (fun _ => LookupOutcome.noData) (fun _ => SearchOutcome.otherError)
        { books := [], lastRun := some "5", noData := CacheSlot.absent } =
      ({ books := [], lastRun := some "5", noData := CacheSlot.absent }, []) ∧
    backfill 1 "t2" (fun _ => LookupOutcome.noData) (fun _ => SearchOutcome.otherError)
        (backfill 0 "t" (fun _ => LookupOutcome.noData) (fun _ => SearchOutcome.otherError)
          { books := [], lastRun := none, noData := CacheSlot.absent }).1 =
      ((backfill 0 "t" (fun _ => LookupOutcome.noData) (fun _ => SearchOutcome.otherError)
          { books := [], lastRun := none, noData := CacheSlot.absent }).1, []) := by
  constructor
  · exact (C3_cooldown_idempotence 10 0 "t" "t" (fun _ => LookupOutcome.noData)
      (fun _ => LookupOutcome.noData) (fun _ => SearchOutcome.otherError)
      (fun _ => SearchOutcome.otherError)
      { books := [], lastRun := some "5", noData := CacheSlot.absent }).1 "5" 5
      rfl (by decide) (by decide) (by decide)
  · exact (C3_cooldown_idempotence 0 1 "t" "t2" (fun _ => LookupOutcome.noData)
      (fun _ => LookupOutcome.noData) (fun _ => SearchOutcome.otherError)
      (fun _ => SearchOutcome.otherError)
      { books := [], lastRun := none, noData := CacheSlot.absent }).2
      (by decide) (by decide) (by decide)

/-- Phase 2 issues no Phase-1 requests: the Phase-1 part of the trace is
unchanged by the Phase-2 loop. -/
theorem phase2Loop_filter_phase1 (now : Int) (nowIso : String) (e2 : String → SearchOutcome) :
    ∀ (cands : List Book) (acc : LoopOut),
      ((phase2Loop now nowIso e2 cands acc).reqs).filter isPhase1Req =
        acc.reqs.filter isPhase1Req := by
  intro cands
  induction cands with
  | nil => intro acc; rfl
  | cons book rest ih =>
    intro acc
    have hstep : ∀ l : List Req, (l ++ [Req.phase2 book.id]).filter isPhase1Req =
        l.filter isPhase1Req := by
      intro l
      rw [List.filter_append]
      simp [isPhase1Req]
    rcases hout : e2 book.id with rs | _ | _
    · rcases rs with _ | ⟨r, rrest⟩
      · simp only [phase2Loop, hout]
        rw [ih]
        exact hstep acc.reqs
      · by_cases hp : patchNonempty (buildUpdates book r) = true
        · simp only [phase2Loop, hout, if_pos hp]
          rw [ih]
          exact hstep acc.reqs
        · simp only [phase2Loop, hout, if_neg hp]
          rw [ih]
          exact hstep acc.reqs
    · simp only [phase2Loop, hout]
      exact hstep acc.reqs
    · simp only [phase2Loop, hout]
      rw [ih]
      exact hstep acc.reqs

/-- Counterexample to claim C2 as stated: with a single record eligible for
both phases and a rate-limit signalled on its Phase-1 lookup, the run still
issues a further provider request, namely the Phase-2 search for the same
record; the trace has two requests, not one. -/
theorem C2_counterexample :
    (backfill 0 "t" (fun _ => LookupOutcome.rateLimited) (fun _ => SearchOutcome.rateLimited)
        { books := [wBook], lastRun := none, noData := CacheSlot.absent }).2 =
      [Req.phase1 "b1", Req.phase2 "b1"] := by
  decide

/-- Claim C2 as amended: a rate-limit on the first Phase-1 candidate aborts
Phase 1 (its lookup stays the only Phase-1 request of the run), Phase 2
still runs over its own candidates, and the negative-result cache and the
last-run timestamp are still persisted at the end of the run. -/
theorem C2_quota_propagation (now : Int) (nowIso : String) (e1 : String → LookupOutcome)
    (e2 : String → SearchOutcome) (st : SchedState) (b : Book) (rest : List Book)
    (hcd : cooldownActive now st.lastRun = false)
    (hc : phase1Candidates now st.noData st.books = b :: rest)
    (hrl : e1 b.id = LookupOutcome.rateLimited) :
    ((backfill now nowIso e1 e2 st).2.filter isPhase1Req = [Req.phase1 b.id]) ∧
    (backfill now nowIso e1 e2 st).1.lastRun = some (timeString now) ∧
    (∃ m, (backfill now nowIso e1 e2 st).1.noData = CacheSlot.valid m) := by
  have hrb : backfill now nowIso e1 e2 st = runBody now nowIso e1 e2 st.books st.noData := by
    simp [backfill, hcd]
  have ho1 : phase1Loop now nowIso e1
      (st.books.filter (phase1Cand now (purgeNoData now (getNoDataSet st.noData))))
      { books := st.books, noData := purgeNoData now (getNoDataSet st.noData),
        updated := false, reqs := [] } =
      { books := st.books, noData := purgeNoData now (getNoDataSet st.noData),
        updated := false, reqs := [Req.phase1 b.id] } := by
    have heq : st.books.filter (phase1Cand now (purgeNoData now (getNoDataSet st.noData))) =
        b :: rest := hc
    rw [heq]
    simp [phase1Loop, hrl]
  rw [hrb]
  refine ⟨?_, runBody_lastRun now nowIso e1 e2 st.books st.noData,
    runBody_noData_valid now nowIso e1 e2 st.books st.noData⟩
  simp only [runBody, ho1]
  rw [phase2Loop_filter_phase1]
  simp [isPhase1Req]

/-- Concrete instance of the amended C2: after the Phase-1 rate limit the
trace holds exactly one Phase-1 request, and both slots are persisted. -/
theorem C2_quota_propagation_witness :
    ((backfill 0 "t" (fun _ => LookupOutcome.rateLimited) (fun _ => SearchOutcome.rateLimited)
        { books := [wBook], lastRun := none, noData := CacheSlot.absent }).2.filter isPhase1Req =
      [Req.phase1 "b1"]) ∧
    (backfill 0 "t" (fun _ => LookupOutcome.rateLimited) (fun _ => SearchOutcome.rateLimited)
        { books := [wBook], lastRun := none, noData := CacheSlot.absent }).1.lastRun =
      some (timeString 0) ∧
    (∃ m, (backfill 0 "t" (fun _ => LookupOutcome.rateLimited)
        (fun _ => SearchOutcome.rateLimited)
        { books := [wBook], lastRun := none, noData := CacheSlot.absent }).1.noData =
      CacheSlot.valid m) := by
  exact C2_quota_propagation 0 "t" (fun _ => LookupOutcome.rateLimited)
    (fun _ => SearchOutcome.rateLimited)
    { books := [wBook], lastRun := none, noData := CacheSlot.absent } wBook []
    (by decide) (by decide) (by decide)

/-- Frame agreement is reflexive. -/
theorem frameAgrees_refl (b : Book) : frameAgrees b b :=
  ⟨rfl, rfl, rfl, rfl, rfl, rfl, rfl, rfl, rfl⟩

/-- Frame agreement is transitive. -/
theorem frameAgrees_trans (a b c : Book) (h1 : frameAgrees a b) (h2 : frameAgrees b c) :
    frameAgrees a c := by
  obtain ⟨x1, x2, x3, x4, x5, x6, x7, x8, x9⟩ := h1
  obtain ⟨y1, y2, y3, y4, y5, y6, y7, y8, y9⟩ := h2
  exact ⟨y1.trans x1, y2.trans x2, y3.trans x3, y4.trans x4, y5.trans x5,
    y6.trans x6, y7.trans x7, y8.trans x8, y9.trans x9⟩

/-- Pointwise frame agreement of a list with itself. -/
theorem forall2_frame_refl : ∀ l : List Book, List.Forall₂ frameAgrees l l
  | [] => List.Forall₂.nil
  | b :: rest => List.Forall₂.cons (frameAgrees_refl b) (forall2_frame_refl rest)

/-- Pointwise frame agreement composes. -/
theorem forall2_frame_trans :
    ∀ {l1 l2 l3 : List Book}, List.Forall₂ frameAgrees l1 l2 →
      List.Forall₂ frameAgrees l2 l3 → List.Forall₂ frameAgrees l1 l3 := by
  intro l1 l2 l3 h1 h2
  induction h1 generalizing l3 with
  | nil =>
    cases h2
    exact List.Forall₂.nil
  | cons hab htail ih =>
    cases h2 with
    | cons hbc htail2 =>
      exact List.Forall₂.cons (frameAgrees_trans _ _ _ hab hbc) (ih htail2)

/-- The scheduler patch assigns none of the frame fields and not updatedAt. -/
theorem buildUpdates_frame_only (b : Book) (r : GoogleBookResult) :
    (buildUpdates b r).id = none ∧ (buildUpdates b r).title = none ∧
    (buildUpdates b r).author = none ∧ (buildUpdates b r).status = none ∧
    (buildUpdates b r).rating = none ∧ (buildUpdates b r).memo = none ∧
    (buildUpdates b r).purchaseUrl = none ∧ (buildUpdates b r).finishedDate = none ∧
    (buildUpdates b r).createdAt = none ∧ (buildUpdates b r).updatedAt = none :=
  ⟨rfl, rfl, rfl, rfl, rfl, rfl, rfl, rfl, rfl, rfl⟩

/-- Applying a scheduler patch preserves the frame fields. -/
theorem applyPatch_frame (b : Book) (b0 : Book) (r : GoogleBookResult) (nowIso : String) :
    frameAgrees b (applyPatch b (buildUpdates b0 r) nowIso) := by
  obtain ⟨h1, h2, h3, h4, h5, h6, h7, h8, h9, _⟩ := buildUpdates_frame_only b0 r
  unfold applyPatch
  refine ⟨?_, ?_, ?_, ?_, ?_, ?_, ?_, ?_, ?_⟩ <;>
    simp [h1, h2, h3, h4, h5, h6, h7, h8, h9]

/-- The store patch with a scheduler patch preserves the frame pointwise. -/
theorem updateBook_frame :
    ∀ (books : List Book) (id : String) (b0 : Book) (r : GoogleBookResult) (nowIso : String),
      List.Forall₂ frameAgrees books (updateBook books id (buildUpdates b0 r) nowIso) := by
  intro books
  induction books with
  | nil => intro id b0 r nowIso; exact List.Forall₂.nil
  | cons b rest ih =>
    intro id b0 r nowIso
    unfold updateBook
    by_cases h : b.id = id
    · rw [if_pos h]
      exact List.Forall₂.cons (applyPatch_frame b b0 r nowIso) (forall2_frame_refl rest)
    · rw [if_neg h]
      exact List.Forall₂.cons (frameAgrees_refl b) (ih id b0 r nowIso)

/-- Phase 1 only performs frame-preserving store patches. -/
theorem phase1Loop_frame (now : Int) (nowIso : String) (e1 : String → LookupOutcome) :
    ∀ (cands : List Book) (acc : LoopOut),
      List.Forall₂ frameAgrees acc.books (phase1Loop now nowIso e1 cands acc).books := by
  intro cands
  induction cands with
  | nil => intro acc; exact forall2_frame_refl acc.books
  | cons book rest ih =>
    intro acc
    rcases hout : e1 book.id with r | _ | _ | _
    · by_cases hp : patchNonempty (buildUpdates book r) = true
      · simp only [phase1Loop, hout, if_pos hp]
        refine forall2_frame_trans (updateBook_frame acc.books book.id book r nowIso) ?_
        exact ih ⟨updateBook acc.books book.id (buildUpdates book r) nowIso,
          acc.noData, true, acc.reqs ++ [Req.phase1 book.id]⟩
      · simp only [phase1Loop, hout, if_neg hp]
        exact ih ⟨acc.books, setTs acc.noData book.id now,
          acc.updated, acc.reqs ++ [Req.phase1 book.id]⟩
    · simp only [phase1Loop, hout]
      exact ih ⟨acc.books, setTs acc.noData book.id now,
        acc.updated, acc.reqs ++ [Req.phase1 book.id]⟩
    · simp only [phase1Loop, hout]
      exact forall2_frame_refl acc.books
    · simp only [phase1Loop, hout]
      exact ih ⟨acc.books, acc.noData, acc.updated, acc.reqs ++ [Req.phase1 book.id]⟩

/-- Phase 2 only performs frame-preserving store patches. -/
theorem phase2Loop_frame (now : Int) (nowIso : String) (e2 : String → SearchOutcome) :
    ∀ (cands : List Book) (acc : LoopOut),
      List.Forall₂ frameAgrees acc.books (phase2Loop now nowIso e2 cands acc).books := by
  intro cands
  induction cands with
  | nil => intro acc; exact forall2_frame_refl acc.books
  | cons book rest ih =>
    intro acc
    rcases hout : e2 book.id with rs | _ | _
    · rcases rs with _ | ⟨r, rrest⟩
      · simp only [phase2Loop, hout]
        exact ih ⟨acc.books, setTs acc.noData book.id now,
          acc.updated, acc.reqs ++ [Req.phase2 book.id]⟩
      · by_cases hp : patchNonempty (buildUpdates book r) = true
        · simp only [phase2Loop, hout, if_pos hp]
          refine forall2_frame_trans (updateBook_frame acc.books book.id book r nowIso) ?_
          exact ih ⟨updateBook acc.books book.id (buildUpdates book r) nowIso,
            acc.noData, true, acc.reqs ++ [Req.phase2 book.id]⟩
        · simp only [phase2Loop, hout, if_neg hp]
          exact ih ⟨acc.books, setTs acc.noData book.id now,
            acc.updated, acc.reqs ++ [Req.phase2 book.id]⟩
    · simp only [phase2Loop, hout]
      exact forall2_frame_refl acc.books
    · simp only [phase2Loop, hout]
      exact ih ⟨acc.books, acc.noData, acc.updated, acc.reqs ++ [Req.phase2 book.id]⟩

/-- Claim C9: every patch the backfill run applies assigns only page count,
published date, thumbnail, description and genre, so a run leaves id,
title, author, status, rating, memo, purchase URL, finished date and
creation timestamp of every record unchanged (the store patch refreshes
only updatedAt besides the patch fields), and it never creates or deletes
records. -/
theorem C9_frame (now : Int) (nowIso : String) (e1 : String → LookupOutcome)
    (e2 : String → SearchOutcome) (st : SchedState) :
    List.Forall₂ frameAgrees st.books (backfill now nowIso e1 e2 st).1.books ∧
    (backfill now nowIso e1 e2 st).1.books.length = st.books.length ∧
    (∀ b r, (buildUpdates b r).id = none ∧ (buildUpdates b r).title = none ∧
      (buildUpdates b r).author = none ∧ (buildUpdates b r).status = none ∧
      (buildUpdates b r).rating = none ∧ (buildUpdates b r).memo = none ∧
      (buildUpdates b r).purchaseUrl = none ∧ (buildUpdates b r).finishedDate = none ∧
      (buildUpdates b r).createdAt = none ∧ (buildUpdates b r).updatedAt = none) := by
  have hmain : List.Forall₂ frameAgrees st.books (backfill now nowIso e1 e2 st).1.books := by
    by_cases hcd : cooldownActive now st.lastRun = true
    · rw [backfill_noop now nowIso e1 e2 st hcd]
      exact forall2_frame_refl st.books
    · have hrb : backfill now nowIso e1 e2 st = runBody now nowIso e1 e2 st.books st.noData := by
        simp [backfill, hcd]
      rw [hrb]
      have hbooks : (runBody now nowIso e1 e2 st.books st.noData).1.books =
          (phase2Loop now nowIso e2
            (((if (phase1Loop now nowIso e1
                  (st.books.filter (phase1Cand now (purgeNoData now (getNoDataSet st.noData))))
                  { books := st.books, noData := purgeNoData now (getNoDataSet st.noData),
                    updated := false, reqs := [] }).updated then
                (phase1Loop now nowIso e1
                  (st.books.filter (phase1Cand now (purgeNoData now (getNoDataSet st.noData))))
                  { books := st.books, noData := purgeNoData now (getNoDataSet st.noData),
                    updated := false, reqs := [] }).books
              else st.books).filter
                (phase2Cand now (phase1Loop now nowIso e1
                  (st.books.filter (phase1Cand now (purgeNoData now (getNoDataSet st.noData))))
                  { books := st.books, noData := purgeNoData now (getNoDataSet st.noData),
                    updated := false, reqs := [] }).noData)).take MAX_GOOGLE_PER_SESSION)
            (phase1Loop now nowIso e1
              (st.books.filter (phase1Cand now (purgeNoData now (getNoDataSet st.noData))))
              { books := st.books, noData := purgeNoData now (getNoDataSet st.noData),
                updated := false, reqs := [] })).books := rfl
      rw [hbooks]
      refine forall2_frame_trans ?_ (phase2Loop_frame now nowIso e2 _ _)
      exact phase1Loop_frame now nowIso e1
        (List.filter (phase1Cand now (purgeNoData now (getNoDataSet st.noData))) st.books)
        { books := st.books, noData := purgeNoData now (getNoDataSet st.noData),
          updated := false, reqs := [] }
  refine ⟨hmain, ?_, fun b r => buildUpdates_frame_only b r⟩
  exact hmain.length_eq.symm

/-- Writing a key makes it present with the written value. -/
theorem lookupTs_setTs_self :
    ∀ (m : List (String × Int)) (k : String) (v : Int), lookupTs (setTs m k v) k = some v := by
  intro m k v
  unfold setTs
  by_cases h : m.any (fun p => p.1 == k) = true
  · rw [if_pos h]
    induction m with
    | nil => simp at h
    | cons p rest ih =>
      rw [List.any_cons, Bool.or_eq_true] at h
      by_cases hp : p.1 == k
      · simp [lookupTs, List.find?, hp]
      · have hrest : rest.any (fun p => p.1 == k) = true := by
          rcases h with h | h
          · exact absurd h hp
          · exact h
        simp only [List.map_cons, if_neg hp]
        unfold lookupTs
        rw [List.find?_cons_of_neg _ (by simpa using hp)]
        exact ih hrest
  · rw [if_neg h]
    induction m with
    | nil => simp [lookupTs, List.find?]
    | cons p rest ih =>
      rw [List.any_cons, Bool.or_eq_true] at h
      push_neg at h
      have hp : ¬(p.1 == k) = true := h.1
      have hrest : ¬rest.any (fun p => p.1 == k) = true := h.2
      simp only [List.cons_append]
      unfold lookupTs
      rw [List.find?_cons_of_neg _ (by simpa using hp)]
      exact ih hrest

/-- Writing one key leaves the lookup of another unchanged. -/
theorem lookupTs_setTs_ne :
    ∀ (m : List (String × Int)) (k i : String) (v : Int), ¬(i = k) →
      lookupTs (setTs m k v) i = lookupTs m i := by
  intro m k i v hik
  unfold setTs
  by_cases h : m.any (fun p => p.1 == k) = true
  · rw [if_pos h]
    clear h
    induction m with
    | nil => rfl
    | cons p rest ih =>
      by_cases hp : p.1 == k
      · have hpk : p.1 = k := by simpa using hp
        have hpi : ¬(p.1 == i) = true := by
          simp only [beq_iff_eq, hpk]
          exact fun hc => hik hc.symm
        simp only [List.map_cons, if_pos hp]
        unfold lookupTs
        rw [List.find?_cons_of_neg _ (by simp; exact fun hc => hik hc.symm),
          List.find?_cons_of_neg _ (by simpa using hpi)]
        exact ih
      · simp only [List.map_cons, if_neg hp]
        by_cases hpi : p.1 == i
        · unfold lookupTs
          rw [List.find?_cons_of_pos _ (by simpa using hpi),
            List.find?_cons_of_pos _ (by simpa using hpi)]
        · unfold lookupTs
          rw [List.find?_cons_of_neg _ (by simpa using hpi),
            List.find?_cons_of_neg _ (by simpa using hpi)]
          exact ih
  · rw [if_neg h]
    unfold lookupTs
    rw [List.find?_append]
    have hki : ((k, v).1 == i) = false := by
      simp only [beq_eq_false_iff_ne, ne_eq]
      exact fun hc => hik hc.symm
    have hlast : List.find? (fun p => p.1 == i) [(k, v)] = none := by
      simp [List.find?, hki]
    rw [hlast]
    cases List.find? (fun p => p.1 == i) m <;> rfl

/-- The cache lifetime is positive. -/
theorem SEVEN_DAYS_pos : (0 : Int) < SEVEN_DAYS := by norm_num [SEVEN_DAYS, ONE_DAY]

/-- Marking any record at the current instant preserves suppression. -/
theorem shouldSkip_setTs (now : Int) (m : List (String × Int)) (k i : String)
    (h : shouldSkip now m i = true) : shouldSkip now (setTs m k now) i = true := by
  by_cases hik : i = k
  · subst hik
    unfold shouldSkip
    rw [lookupTs_setTs_self]
    have := SEVEN_DAYS_pos
    simp
    omega
  · unfold shouldSkip at h ⊢
    rw [lookupTs_setTs_ne m k i now hik]
    exact h

/-- The find? of a pair list whose head key matches. -/
theorem find_pair_cons_pos (p : String × Int) (rest : List (String × Int)) (i : String)
    (h : (p.1 == i) = true) :
    List.find? (fun q => q.1 == i) (p :: rest) = some p := by
  have h2 : (fun q : String × Int => q.1 == i) p = true := h
  rw [List.find?_cons_of_pos rest h2]

/-- The find? of a pair list whose head key differs. -/
theorem find_pair_cons_neg (p : String × Int) (rest : List (String × Int)) (i : String)
    (h : (p.1 == i) = false) :
    List.find? (fun q => q.1 == i) (p :: rest) = List.find? (fun q => q.1 == i) rest := by
  have h2 : ¬(fun q : String × Int => q.1 == i) p = true := by
    intro hc
    have hc2 : (p.1 == i) = true := hc
    rw [h] at hc2
    exact Bool.false_ne_true hc2
  rw [List.find?_cons_of_neg rest h2]

/-- A fresh entry survives the purge with its value. -/
theorem lookupTs_purge_fresh (now : Int) :
    ∀ (m : List (String × Int)) (i : String) (ts : Int),
      lookupTs m i = some ts → now - ts < SEVEN_DAYS →
      lookupTs (purgeNoData now m) i = some ts := by
  intro m
  induction m with
  | nil => intro i ts h _; simp [lookupTs, List.find?] at h
  | cons p rest ih =>
    intro i ts h hf
    by_cases hpi : (p.1 == i) = true
    · have hv : p.2 = ts := by
        unfold lookupTs at h
        rw [find_pair_cons_pos p rest i hpi] at h
        simpa using h
      unfold purgeNoData
      rw [List.filter_cons, if_pos (by simp only [hv]; simpa using hf)]
      unfold lookupTs
      rw [find_pair_cons_pos p _ i hpi]
      simp [hv]
    · have hpif : (p.1 == i) = false := Bool.eq_false_iff.mpr hpi
      have hrest : lookupTs rest i = some ts := by
        unfold lookupTs at h ⊢
        rwa [find_pair_cons_neg p rest i hpif] at h
      unfold purgeNoData
      rw [List.filter_cons]
      by_cases hkeep : decide (now - p.2 < SEVEN_DAYS) = true
      · rw [if_pos hkeep]
        unfold lookupTs
        rw [find_pair_cons_neg p _ i hpif]
        exact ih i ts hrest hf
      · rw [if_neg hkeep]
        exact ih i ts hrest hf

/-- A list with no entry for a key looks it up as absent. -/
theorem lookupTs_eq_none (m : List (String × Int)) (i : String)
    (h : ∀ p ∈ m, ¬(p.1 = i)) : lookupTs m i = none := by
  unfold lookupTs
  rw [List.find?_eq_none.mpr]
  · rfl
  · intro p hp
    simpa using h p hp

/-- With unique keys, a stale entry is gone after the purge. -/
theorem lookupTs_purge_stale (now : Int) :
    ∀ (m : List (String × Int)) (i : String) (ts : Int),
      (m.map Prod.fst).Nodup → lookupTs m i = some ts → SEVEN_DAYS ≤ now - ts →
      lookupTs (purgeNoData now m) i = none := by
  intro m
  induction m with
  | nil => intro i ts _ h _; simp [lookupTs, List.find?] at h
  | cons p rest ih =>
    intro i ts hnd h hs
    rw [List.map_cons, List.nodup_cons] at hnd
    by_cases hpi : (p.1 == i) = true
    · have hpi2 : p.1 = i := by simpa using hpi
      have hv : p.2 = ts := by
        unfold lookupTs at h
        rw [find_pair_cons_pos p rest i hpi] at h
        simpa using h
      unfold purgeNoData
      rw [List.filter_cons, if_neg (by simp only [hv]; simpa using not_lt.mpr hs)]
      apply lookupTs_eq_none
      intro q hq
      have hqrest : q ∈ rest := List.mem_of_mem_filter hq
      intro hqi
      apply hnd.1
      rw [hpi2, ← hqi]
      exact List.mem_map.mpr ⟨q, hqrest, rfl⟩
    · have hpif : (p.1 == i) = false := Bool.eq_false_iff.mpr hpi
      have hrest : lookupTs rest i = some ts := by
        unfold lookupTs at h ⊢
        rwa [find_pair_cons_neg p rest i hpif] at h
      unfold purgeNoData
      rw [List.filter_cons]
      by_cases hkeep : decide (now - p.2 < SEVEN_DAYS) = true
      · rw [if_pos hkeep]
        unfold lookupTs
        rw [find_pair_cons_neg p _ i hpif]
        exact ih i ts hnd.2 hrest hs
      · rw [if_neg hkeep]
        exact ih i ts hnd.2 hrest hs

/-- A fresh entry suppresses its record after the purge. -/
theorem shouldSkip_purge_fresh (now : Int) (m : List (String × Int)) (i : String) (ts : Int)
    (h : lookupTs m i = some ts) (hf : now - ts < SEVEN_DAYS) :
    shouldSkip now (purgeNoData now m) i = true := by
  unfold shouldSkip
  rw [lookupTs_purge_fresh now m i ts h hf]
  simpa using hf

/-- Phase 1 never unsuppresses a record: the skip test stays true. -/
theorem phase1Loop_skip (now : Int) (nowIso : String) (e1 : String → LookupOutcome) (i : String) :
    ∀ (cands : List Book) (acc : LoopOut), shouldSkip now acc.noData i = true →
      shouldSkip now (phase1Loop now nowIso e1 cands acc).noData i = true := by
  intro cands
  induction cands with
  | nil => intro acc h; exact h
  | cons book rest ih =>
    intro acc h
    rcases hout : e1 book.id with r | _ | _ | _
    · by_cases hp : patchNonempty (buildUpdates book r) = true
      · simp only [phase1Loop, hout, if_pos hp]
        exact ih ⟨updateBook acc.books book.id (buildUpdates book r) nowIso,
          acc.noData, true, acc.reqs ++ [Req.phase1 book.id]⟩ h
      · simp only [phase1Loop, hout, if_neg hp]
        exact ih ⟨acc.books, setTs acc.noData book.id now,
          acc.updated, acc.reqs ++ [Req.phase1 book.id]⟩
          (shouldSkip_setTs now acc.noData book.id i h)
    · simp only [phase1Loop, hout]
      exact ih ⟨acc.books, setTs acc.noData book.id now,
        acc.updated, acc.reqs ++ [Req.phase1 book.id]⟩
        (shouldSkip_setTs now acc.noData book.id i h)
    · simp only [phase1Loop, hout]
      exact h
    · simp only [phase1Loop, hout]
      exact ih ⟨acc.books, acc.noData, acc.updated, acc.reqs ++ [Req.phase1 book.id]⟩ h

/-- Every request of the Phase-1 loop is inherited or names a candidate. -/
theorem phase1Loop_reqs_mem (now : Int) (nowIso : String) (e1 : String → LookupOutcome) :
    ∀ (cands : List Book) (acc : LoopOut) (r : Req),
      r ∈ (phase1Loop now nowIso e1 cands acc).reqs →
      r ∈ acc.reqs ∨ ∃ bk ∈ cands, r = Req.phase1 bk.id := by
  intro cands
  induction cands with
  | nil => intro acc r h; exact Or.inl h
  | cons book rest ih =>
    intro acc r h
    have hsplit : ∀ q : Req, q ∈ acc.reqs ++ [Req.phase1 book.id] →
        q ∈ acc.reqs ∨ ∃ bk ∈ book :: rest, q = Req.phase1 bk.id := by
      intro q hq
      rcases List.mem_append.mp hq with hq | hq
      · exact Or.inl hq
      · exact Or.inr ⟨book, List.mem_cons_self book rest, by simpa using hq⟩
    have hlift : ∀ acc2 : LoopOut, acc2.reqs = acc.reqs ++ [Req.phase1 book.id] →
        r ∈ (phase1Loop now nowIso e1 rest acc2).reqs →
        r ∈ acc.reqs ∨ ∃ bk ∈ book :: rest, r = Req.phase1 bk.id := by
      intro acc2 heq hr
      rcases ih acc2 r hr with hr | ⟨bk, hbk, hq⟩
      · exact hsplit r (heq ▸ hr)
      · exact Or.inr ⟨bk, List.mem_cons_of_mem book hbk, hq⟩
    rcases hout : e1 book.id with res | _ | _ | _
    · by_cases hp : patchNonempty (buildUpdates book res) = true
      · simp only [phase1Loop, hout, if_pos hp] at h
        exact hlift _ rfl h
      · simp only [phase1Loop, hout, if_neg hp] at h
        exact hlift _ rfl h
    · simp only [phase1Loop, hout] at h
      exact hlift _ rfl h
    · simp only [phase1Loop, hout] at h
      exact hsplit r h
    · simp only [phase1Loop, hout] at h
      exact hlift _ rfl h

/-- Every request of the Phase-2 loop is inherited or names a candidate. -/
theorem phase2Loop_reqs_mem (now : Int) (nowIso : String) (e2 : String → SearchOutcome) :
    ∀ (cands : List Book) (acc : LoopOut) (r : Req),
      r ∈ (phase2Loop now nowIso e2 cands acc).reqs →
      r ∈ acc.reqs ∨ ∃ bk ∈ cands, r = Req.phase2 bk.id := by
  intro cands
  induction cands with
  | nil => intro acc r h; exact Or.inl h
  | cons book rest ih =>
    intro acc r h
    have hsplit : ∀ q : Req, q ∈ acc.reqs ++ [Req.phase2 book.id] →
        q ∈ acc.reqs ∨ ∃ bk ∈ book :: rest, q = Req.phase2 bk.id := by
      intro q hq
      rcases List.mem_append.mp hq with hq | hq
      · exact Or.inl hq
      · exact Or.inr ⟨book, List.mem_cons_self book rest, by simpa using hq⟩
    have hlift : ∀ acc2 : LoopOut, acc2.reqs = acc.reqs ++ [Req.phase2 book.id] →
        r ∈ (phase2Loop now nowIso e2 rest acc2).reqs →
        r ∈ acc.reqs ∨ ∃ bk ∈ book :: rest, r = Req.phase2 bk.id := by
      intro acc2 heq hr
      rcases ih acc2 r hr with hr | ⟨bk, hbk, hq⟩
      · exact hsplit r (heq ▸ hr)
      · exact Or.inr ⟨bk, List.mem_cons_of_mem book hbk, hq⟩
    rcases hout : e2 book.id with rs | _ | _
    · rcases rs with _ | ⟨res, rrest⟩
      · simp only [phase2Loop, hout] at h
        exact hlift _ rfl h
      · by_cases hp : patchNonempty (buildUpdates book res) = true
        · simp only [phase2Loop, hout, if_pos hp] at h
          exact hlift _ rfl h
        · simp only [phase2Loop, hout, if_neg hp] at h
          exact hlift _ rfl h
    · simp only [phase2Loop, hout] at h
      exact hsplit r h
    · simp only [phase2Loop, hout] at h
      exact hlift _ rfl h

/-- Every request of a run body names a Phase-1 candidate or a record that
passed the Phase-2 filter against the post-Phase-1 cache. -/
theorem runBody_reqs_mem (now : Int) (nowIso : String) (e1 : String → LookupOutcome)
    (e2 : String → SearchOutcome) (books0 : List Book) (slot : CacheSlot) (r : Req)
    (hr : r ∈ (runBody now nowIso e1 e2 books0 slot).2) :
    (∃ bk ∈ books0.filter (phase1Cand now (purgeNoData now (getNoDataSet slot))),
        r = Req.phase1 bk.id) ∨
    (∃ bk, phase2Cand now
        (phase1Loop now nowIso e1
          (books0.filter (phase1Cand now (purgeNoData now (getNoDataSet slot))))
          ⟨books0, purgeNoData now (getNoDataSet slot), false, []⟩).noData bk = true ∧
      r = Req.phase2 bk.id) := by
  rcases phase2Loop_reqs_mem now nowIso e2 _ _ r hr with h1 | ⟨bk, hbk, hq⟩
  · rcases phase1Loop_reqs_mem now nowIso e1 _ _ r h1 with h0 | ⟨bk, hbk, hq⟩
    · exact absurd h0 (List.not_mem_nil r)
    · exact Or.inl ⟨bk, hbk, hq⟩
  · right
    refine ⟨bk, ?_, hq⟩
    have hbk2 := List.take_subset MAX_GOOGLE_PER_SESSION _ hbk
    exact (List.mem_filter.mp hbk2).2

/-- Claim C5: a negative-cache entry under 7 days old suppresses its record
from both phases of the run (no request names it); an entry 7 days old or
older is purged at the start of the run, no longer suppresses the record,
and an otherwise-eligible record (for example one with page count 0, which
is missing data) is selected as a Phase-1 candidate again. -/
theorem C5_negative_cache (now : Int) (nowIso : String) (e1 : String → LookupOutcome)
    (e2 : String → SearchOutcome) (st : SchedState) (id : String) (ts : Int)
    (hlk : lookupTs (getNoDataSet st.noData) id = some ts) :
    (now - ts < SEVEN_DAYS →
      ∀ r ∈ (backfill now nowIso e1 e2 st).2, r ≠ Req.phase1 id ∧ r ≠ Req.phase2 id) ∧
    (((getNoDataSet st.noData).map Prod.fst).Nodup → SEVEN_DAYS ≤ now - ts →
      lookupTs (purgeNoData now (getNoDataSet st.noData)) id = none ∧
      shouldSkip now (purgeNoData now (getNoDataSet st.noData)) id = false ∧
      (∀ b ∈ st.books, b.id = id → wantsIsbnLookup b = true →
        b ∈ phase1Candidates now st.noData st.books) ∧
      (∀ b : Book, b.id = id → b.pageCount = 0 → isMissingData b = true)) := by
  constructor
  · intro hfresh r hr
    by_cases hcd : cooldownActive now st.lastRun = true
    · rw [backfill_noop now nowIso e1 e2 st hcd] at hr
      exact absurd hr (List.not_mem_nil r)
    · have hrb : backfill now nowIso e1 e2 st = runBody now nowIso e1 e2 st.books st.noData := by
        simp [backfill, hcd]
      rw [hrb] at hr
      have hskip0 : shouldSkip now (purgeNoData now (getNoDataSet st.noData)) id = true :=
        shouldSkip_purge_fresh now _ id ts hlk hfresh
      rcases runBody_reqs_mem now nowIso e1 e2 st.books st.noData r hr with
        ⟨bk, hbk, rfl⟩ | ⟨bk, hc2, rfl⟩
      · have hcand : phase1Cand now (purgeNoData now (getNoDataSet st.noData)) bk = true :=
          (List.mem_filter.mp hbk).2
        have hns : shouldSkip now (purgeNoData now (getNoDataSet st.noData)) bk.id = false := by
          unfold phase1Cand at hcand
          by_cases hss : shouldSkip now (purgeNoData now (getNoDataSet st.noData)) bk.id = true
          · rw [if_pos hss] at hcand
            exact absurd hcand (by simp)
          · exact Bool.eq_false_iff.mpr hss
        have hne : bk.id ≠ id := by
          intro he
          rw [he, hskip0] at hns
          exact absurd hns (by decide)
        constructor
        · intro hc
          injection hc with h2
          exact hne h2
        · intro hc
          exact Req.noConfusion hc
      · simp only [phase2Cand, Bool.and_eq_true, Bool.not_eq_true'] at hc2
        have hns := hc2.2
        have hskip1 : shouldSkip now
            ((phase1Loop now nowIso e1
              (st.books.filter (phase1Cand now (purgeNoData now (getNoDataSet st.noData))))
              ⟨st.books, purgeNoData now (getNoDataSet st.noData), false, []⟩).noData) id = true :=
          phase1Loop_skip now nowIso e1 id
            (st.books.filter (phase1Cand now (purgeNoData now (getNoDataSet st.noData))))
            ⟨st.books, purgeNoData now (getNoDataSet st.noData), false, []⟩ hskip0
        have hne : bk.id ≠ id := by
          intro he
          rw [he, hskip1] at hns
          exact absurd hns (by decide)
        constructor
        · intro hc
          exact Req.noConfusion hc
        · intro hc
          injection hc with h2
          exact hne h2
  · intro hnd hstale
    have h1 : lookupTs (purgeNoData now (getNoDataSet st.noData)) id = none :=
      lookupTs_purge_stale now _ id ts hnd hlk hstale
    have h2 : shouldSkip now (purgeNoData now (getNoDataSet st.noData)) id = false := by
      unfold shouldSkip
      rw [h1]
    refine ⟨h1, h2, ?_, ?_⟩
    · intro b hb hbid hw
      unfold phase1Candidates
      apply List.mem_filter.mpr
      refine ⟨hb, ?_⟩
      unfold phase1Cand
      rw [hbid]
      simp [h2, hw]
    · intro b hbid hpc
      unfold isMissingData
      simp [hpc]

/-- Concrete instance of C5: a fresh entry for the record keeps both phases
away from it, a stale entry lets it be selected again. -/
theorem C5_negative_cache_witness :
    (∀ r ∈ (backfill 0 "t" (fun _ => LookupOutcome.noData) (fun _ => SearchOutcome.results [])
        { books := [wBook], lastRun := none, noData := CacheSlot.valid [("b1", 0)] }).2,
      r ≠ Req.phase1 "b1" ∧ r ≠ Req.phase2 "b1") ∧
    wBook ∈ phase1Candidates 0 (CacheSlot.valid [("b1", -SEVEN_DAYS)]) [wBook] := by
  constructor
  · exact (C5_negative_cache 0 "t" (fun _ => LookupOutcome.noData)
      (fun _ => SearchOutcome.results [])
      { books := [wBook], lastRun := none, noData := CacheSlot.valid [("b1", 0)] } "b1" 0
      (by decide)).1 (by decide)
  · exact ((C5_negative_cache 0 "t" (fun _ => LookupOutcome.noData)
      (fun _ => SearchOutcome.results [])
      { books := [wBook], lastRun := none, noData := CacheSlot.valid [("b1", -SEVEN_DAYS)] }
      "b1" (-SEVEN_DAYS) (by decide)).2 (by decide) (by decide)).2.2.1 wBook
      (by decide) (by decide) (by decide)
